import Mathlib

/-!
Formal model of the mcp-mirage brand-extraction services
(`src/mirage/services/firecrawl.py`, `src/mirage/services/vision.py`),
of the canonical brand schema, and of the color-similarity scorer
described in the specification.

Python strings are modelled as lists of characters, Python/JSON values by
the `Json` inductive type, and code paths that can raise by `Except PyError`.
-/

namespace Mirage

/-- Python strings are modelled as lists of characters. -/
abbrev Str := List Char

/-- Converts a Lean string literal into the `Str` model. -/
def toStr (s : String) : Str := s.data

/-- Python `str.strip()` whitespace set (ASCII part). -/
def isPySpace (c : Char) : Bool :=
  c == ' ' || c == '\t' || c == '\n' || c == '\r' ||
    c == Char.ofNat 11 || c == Char.ofNat 12

/-- Python `str.strip()`: drop leading and trailing whitespace. -/
def pyStrip (s : Str) : Str :=
  ((s.dropWhile isPySpace).reverse.dropWhile isPySpace).reverse

/-- Python `text.startswith(p)`: `p` occurs at the start of the second list. -/
def startsWithStr : Str → Str → Bool
  | [], _ => true
  | _ :: _, [] => false
  | a :: p, b :: s => a == b && startsWithStr p s

/-- Python `text.split("\n")`. -/
def splitNl : Str → List Str
  | [] => [[]]
  | c :: rest =>
    if c = '\n' then [] :: splitNl rest
    else
      match splitNl rest with
      | [] => [[c]]
      | h :: t => (c :: h) :: t

/-- Python `"\n".join(lines)`. -/
def joinNl : List Str → Str
  | [] => []
  | [x] => x
  | x :: xs => x ++ '\n' :: joinNl xs

/-- JSON/Python values as delivered by `response.json()` or `json.loads`.
Numeric payload values are modelled as integers (every numeric field the
services read is integral). -/
inductive Json where
  | null
  | bool (b : Bool)
  | num (n : Int)
  | str (s : Str)
  | arr (items : List Json)
  | obj (fields : List (Str × Json))

/-- The exception kinds the services can raise after a successful transport
call: `AttributeError` from calling `.get`/`.values` on a non-dict value,
`ValidationError` from pydantic field validation, `TypeError` from `in` or
indexing on an unsupported value, `KeyError` from dict indexing, and
`ValueError` from the constructor credential check. -/
inductive PyError where
  | attributeError
  | validationError
  | typeError
  | keyError
  | valueError
deriving DecidableEq

/-- First-match association lookup; Python dicts hold unique keys, so this
models dict lookup. -/
def lookupA (l : List (Str × Json)) (k : Str) : Option Json :=
  match l with
  | [] => none
  | p :: rest => if p.1 = k then some p.2 else lookupA rest k

/-- Python truthiness of a value. -/
def Json.truthy : Json → Bool
  | .null => false
  | .bool b => b
  | .num n => n != 0
  | .str s => !s.isEmpty
  | .arr l => !l.isEmpty
  | .obj l => !l.isEmpty

/-- Python `d.get(k, default)`: raises `AttributeError` unless `d` is a dict. -/
def Json.getD (j : Json) (k : Str) (d : Json) : Except PyError Json :=
  match j with
  | .obj l => .ok ((lookupA l k).getD d)
  | _ => .error .attributeError

/-- Python `list(d.values())`: raises `AttributeError` unless `d` is a dict. -/
def Json.valuesE : Json → Except PyError (List Json)
  | .obj l => .ok (l.map Prod.snd)
  | _ => .error .attributeError

/-- Resolution of a Python dict-indexing lookup: `KeyError` when missing. -/
def indexOpt : Option Json → Except PyError Json
  | some v => .ok v
  | none => .error .keyError

/-- Python `d[k]` indexing: `KeyError` on a missing key, `TypeError` on a
value that does not support string indexing. -/
def Json.index (j : Json) (k : Str) : Except PyError Json :=
  match j with
  | .obj l => indexOpt (lookupA l k)
  | _ => .error .typeError

/-- Substring occurrence test, for Python `in` applied to strings. -/
def containsStr (hay needle : Str) : Bool :=
  match hay with
  | [] => startsWithStr needle []
  | _ :: rest => startsWithStr needle hay || containsStr rest needle

/-- Python `key in container` for the container shapes that support it. -/
def Json.hasKey (j : Json) (k : Str) : Except PyError Bool :=
  match j with
  | .obj l => .ok (l.any fun p => p.1 == k)
  | .str s => .ok (containsStr s k)
  | .arr l => .ok (l.any fun x => match x with | .str s => s == k | _ => false)
  | _ => .error .typeError

mutual

/-- Python `repr` of a value, used by f-string interpolation of container
values. String `repr` is approximated with single quotes and no escaping;
the payloads the theorems evaluate never reach the container cases. -/
def jsonRepr : Json → Str
  | .null => toStr "None"
  | .bool true => toStr "True"
  | .bool false => toStr "False"
  | .num n => toStr (toString n)
  | .str s => Char.ofNat 39 :: (s ++ [Char.ofNat 39])
  | .arr l => '[' :: (jsonReprList l ++ [']'])
  | .obj l => Char.ofNat 123 :: (jsonReprFields l ++ [Char.ofNat 125])

/-- Comma-separated `repr` of list items. -/
def jsonReprList : List Json → Str
  | [] => []
  | [x] => jsonRepr x
  | x :: y :: xs => jsonRepr x ++ toStr ", " ++ jsonReprList (y :: xs)

/-- Comma-separated `repr` of dict entries. -/
def jsonReprFields : List (Str × Json) → Str
  | [] => []
  | [(k, v)] => jsonRepr (.str k) ++ toStr ": " ++ jsonRepr v
  | (k, v) :: q :: ps =>
    jsonRepr (.str k) ++ toStr ": " ++ jsonRepr v ++ toStr ", " ++
      jsonReprFields (q :: ps)

end

/-- Python `str(x)` as used by f-string interpolation: atoms render
directly, containers through `repr`. -/
def pyStr : Json → Str
  | .null => toStr "None"
  | .bool true => toStr "True"
  | .bool false => toStr "False"
  | .num n => toStr (toString n)
  | .str s => s
  | .arr l => jsonRepr (.arr l)
  | .obj l => jsonRepr (.obj l)

/-- Modelled from the spec: the canonical `BrandColors` value object of
`mirage/schemas/brand.py` (that module is absent from `src/`), per spec
section 3. -/
structure BrandColors where
  primary : Str
  secondary : Option Str := none
  accent : Option Str := none
  background : Option Str := none
  text : Option Str := none
  palette : List Str := []
deriving DecidableEq

/-- Modelled from the spec: the canonical `BrandTypography` value object of
`mirage/schemas/brand.py`, per spec section 3. -/
structure BrandTypography where
  headings : Str := toStr "sans-serif"
  body : Str := toStr "sans-serif"
  weights : List Int := [400, 600, 700]
  base_size : Option Str := none
deriving DecidableEq

/-- Modelled from the spec: the canonical `BrandSpacing` value object of
`mirage/schemas/brand.py`, per spec section 3. -/
structure BrandSpacing where
  grid : Str := toStr "8px"
  gap : Option Str := none
deriving DecidableEq

/-- Modelled from the spec: the canonical `ButtonStyle` value object of
`mirage/schemas/brand.py`, per spec section 3. -/
structure ButtonStyle where
  bg : Str
  text : Str
  border_radius : Str := toStr "4px"
  padding : Str := toStr "12px 24px"
  border : Option Str := none
deriving DecidableEq

/-- Modelled from the spec: the canonical `BrandButtons` value object of
`mirage/schemas/brand.py`, per spec section 3. -/
structure BrandButtons where
  primary : Option ButtonStyle := none
  secondary : Option ButtonStyle := none
deriving DecidableEq

/-- Modelled from the spec: the canonical `BrandData` value object of
`mirage/schemas/brand.py`, per spec section 3. -/
structure BrandData where
  url : Str
  colors : BrandColors
  typography : BrandTypography
  spacing : BrandSpacing := {}
  buttons : BrandButtons := {}
  logo_url : Option Str := none
  favicon_url : Option Str := none
  screenshots : List Str := []
deriving DecidableEq

/-- Modelled from the spec: pydantic validation of a required `str` field. -/
def asStr : Json → Except PyError Str
  | .str s => .ok s
  | _ => .error .validationError

/-- Modelled from the spec: pydantic validation of an `Optional[str]` field. -/
def asOptStr : Json → Except PyError (Option Str)
  | .null => .ok none
  | .str s => .ok (some s)
  | _ => .error .validationError

/-- Modelled from the spec: pydantic validation of one `int` list element. -/
def asInt : Json → Except PyError Int
  | .num n => .ok n
  | _ => .error .validationError

/-- The backtick character (code point 96). -/
def btick : Char := Char.ofNat 96

/-- Python truthiness of an `Optional[str]` value (`None` and `""` are falsy). -/
def optTruthy : Option Str → Bool
  | none => false
  | some s => !s.isEmpty

/-- Python `a or b` over `Optional[str]` values. -/
def pyOrOpt (a b : Option Str) : Option Str :=
  if optTruthy a then a else b

/-- The `VisionService.__init__` credential check: `api_key or
os.getenv("ANTHROPIC_API_KEY")`, then `ValueError` when the result is falsy.
The environment is modelled as a partial map from variable names to values. -/
def visionInit (apiKey : Option Str) (env : Str → Option Str) :
    Except PyError Str :=
  if optTruthy (pyOrOpt apiKey (env (toStr "ANTHROPIC_API_KEY"))) then
    .ok ((pyOrOpt apiKey (env (toStr "ANTHROPIC_API_KEY"))).getD [])
  else
    .error .valueError

/-- The `FirecrawlService.__init__` credential check: `api_key or
os.getenv("FIRECRAWL_API_KEY")`, then `ValueError` when the result is falsy. -/
def firecrawlInit (apiKey : Option Str) (env : Str → Option Str) :
    Except PyError Str :=
  if optTruthy (pyOrOpt apiKey (env (toStr "FIRECRAWL_API_KEY"))) then
    .ok ((pyOrOpt apiKey (env (toStr "FIRECRAWL_API_KEY"))).getD [])
  else
    .error .valueError

/-- Modelled from the spec: pydantic validation of a `List[int]` field. -/
def asIntList : Json → Except PyError (List Int)
  | .arr l => l.mapM asInt
  | _ => .error .validationError

/-- Modelled from the spec: pydantic validation of a `List[str]` field. -/
def asStrList (l : List Json) : Except PyError (List Str) :=
  l.mapM asStr

/-- `VisionService._parse_response`, colors block: canonical colors with the
vision-path defaults and the fixed-order, truthiness-filtered palette. -/
def vBuildColors (c : Json) : Except PyError BrandColors := do
  let pJ ← c.getD (toStr "primary") (.str (toStr "#000000"))
  let sJ ← c.getD (toStr "secondary") .null
  let aJ ← c.getD (toStr "accent") .null
  let bJ ← c.getD (toStr "background") (.str (toStr "#ffffff"))
  let tJ ← c.getD (toStr "text") (.str (toStr "#000000"))
  let p0 ← c.getD (toStr "primary") .null
  let s0 ← c.getD (toStr "secondary") .null
  let a0 ← c.getD (toStr "accent") .null
  let b0 ← c.getD (toStr "background") .null
  let t0 ← c.getD (toStr "text") .null
  let primary ← asStr pJ
  let secondary ← asOptStr sJ
  let accent ← asOptStr aJ
  let background ← asOptStr bJ
  let text ← asOptStr tJ
  let palette ← asStrList ([p0, s0, a0, b0, t0].filter Json.truthy)
  pure { primary := primary, secondary := secondary, accent := accent,
         background := background, text := text, palette := palette }

/-- `VisionService._parse_response`, typography block. -/
def vBuildTypo (t : Json) : Except PyError BrandTypography := do
  let hJ ← t.getD (toStr "headings") (.str (toStr "sans-serif"))
  let bJ ← t.getD (toStr "body") (.str (toStr "sans-serif"))
  let wJ ← t.getD (toStr "weights") (.arr [.num 400, .num 600, .num 700])
  let headings ← asStr hJ
  let body ← asStr bJ
  let weights ← asIntList wJ
  pure { headings := headings, body := body, weights := weights,
         base_size := none }

/-- One button of `VisionService._parse_response`: `bg`/`text` fall back to
the given defaults, `border_radius` to `"4px"`, `padding` is the fixed
literal, and `border` is read only when `has_border` is truthy. -/
def vBuildButton (btn : Json) (bgDefault textDefault : Str) :
    Except PyError ButtonStyle := do
  let bgJ ← btn.getD (toStr "bg") (.str bgDefault)
  let textJ ← btn.getD (toStr "text") (.str textDefault)
  let brJ ← btn.getD (toStr "border_radius") (.str (toStr "4px"))
  let hbJ ← btn.getD (toStr "has_border") .null
  let borderJ ← if hbJ.truthy then btn.getD (toStr "border") .null
                else pure .null
  let bg ← asStr bgJ
  let text ← asStr textJ
  let br ← asStr brJ
  let border ← asOptStr borderJ
  pure { bg := bg, text := text, border_radius := br,
         padding := toStr "12px 24px", border := border }

/-- `VisionService._parse_response`, buttons block: each slot is built only
when the corresponding sub-object is truthy. -/
def vBuildButtons (bd : Json) (primaryColor : Str) :
    Except PyError BrandButtons := do
  let pJ ← bd.getD (toStr "primary") .null
  let primary ←
    if pJ.truthy then do
      let b ← vBuildButton pJ primaryColor (toStr "#ffffff")
      pure (some b)
    else pure none
  let sJ ← bd.getD (toStr "secondary") .null
  let secondary ←
    if sJ.truthy then do
      let b ← vBuildButton sJ (toStr "transparent") primaryColor
      pure (some b)
    else pure none
  pure { primary := primary, secondary := secondary }

/-- `VisionService._default_brand_data`: the full-default `BrandData` used
when parsing fails. -/
def defaultBrandData (sourceUrl screenshotUrl : Str) : BrandData :=
  { url := sourceUrl
    colors := { primary := toStr "#000000" }
    typography := { headings := toStr "sans-serif", body := toStr "sans-serif" }
    spacing := {}
    buttons := {}
    screenshots := [screenshotUrl] }

/-- The closing-fence removal of `VisionService._parse_response`: drop the
last line when it strips to a bare triple-backtick fence. -/
def dropClosing (lines : List Str) : List Str :=
  match lines.getLast? with
  | some l => if pyStrip l = toStr "```" then lines.dropLast else lines
  | none => lines

/-- The markdown code-fence stripping of `VisionService._parse_response`:
when the (stripped) text starts with a triple backtick, drop the first line
and a bare closing-fence last line. -/
def stripFence (text : Str) : Str :=
  if startsWithStr (toStr "```") text then
    joinNl (dropClosing ((splitNl text).drop 1))
  else text

/-- `VisionService._parse_response` applied to an already parsed JSON value:
colors, typography and buttons blocks, then the final `BrandData`. -/
def vBuild (j : Json) (sourceUrl screenshotUrl : Str) :
    Except PyError BrandData := do
  let colorsJ ← j.getD (toStr "colors") (.obj [])
  let colors ← vBuildColors colorsJ
  let typoJ ← j.getD (toStr "typography") (.obj [])
  let typography ← vBuildTypo typoJ
  let buttonsJ ← j.getD (toStr "buttons") (.obj [])
  let buttons ← vBuildButtons buttonsJ colors.primary
  pure { url := sourceUrl, colors := colors, typography := typography,
         spacing := {}, buttons := buttons, screenshots := [screenshotUrl] }

/-- `VisionService._parse_response`: strip whitespace, strip a markdown
fence, then `json.loads` (modelled by the `loads` parameter, `none` meaning
`JSONDecodeError`); a parse failure yields the default brand data, and any
later failure propagates. -/
def parseResponse (loads : Str → Option Json)
    (responseText sourceUrl screenshotUrl : Str) : Except PyError BrandData :=
  match loads (pyStrip (stripFence (pyStrip responseText))) with
  | none => .ok (defaultBrandData sourceUrl screenshotUrl)
  | some j => vBuild j sourceUrl screenshotUrl

/-- `FirecrawlService.extract_brand`, colors block: vendor `textPrimary`
becomes canonical `text`, and `palette` is the vendor dict's value list in
insertion order (empty for a falsy colors dict). -/
def buildColors (c : Json) : Except PyError BrandColors := do
  let pJ ← c.getD (toStr "primary") (.str (toStr "#000000"))
  let sJ ← c.getD (toStr "secondary") .null
  let aJ ← c.getD (toStr "accent") .null
  let bJ ← c.getD (toStr "background") .null
  let tJ ← c.getD (toStr "textPrimary") .null
  let paletteJ ← if c.truthy then c.valuesE else pure []
  let primary ← asStr pJ
  let secondary ← asOptStr sJ
  let accent ← asOptStr aJ
  let background ← asOptStr bJ
  let text ← asOptStr tJ
  let palette ← asStrList paletteJ
  pure { primary := primary, secondary := secondary, accent := accent,
         background := background, text := text, palette := palette }

/-- `FirecrawlService.extract_brand`, typography block. -/
def buildTypography (t : Json) : Except PyError BrandTypography := do
  let ff ← t.getD (toStr "fontFamilies") (.obj [])
  let fw ← t.getD (toStr "fontWeights") (.obj [])
  let innerJ ← ff.getD (toStr "primary") (.str (toStr "sans-serif"))
  let hJ ← ff.getD (toStr "heading") innerJ
  let bJ ← ff.getD (toStr "primary") (.str (toStr "sans-serif"))
  let wJs ← if fw.truthy then fw.valuesE
            else pure [.num 400, .num 600, .num 700]
  let fsJ ← t.getD (toStr "fontSizes") (.obj [])
  let bsJ ← fsJ.getD (toStr "body") (.str (toStr "16px"))
  let headings ← asStr hJ
  let body ← asStr bJ
  let weights ← wJs.mapM asInt
  let base ← asOptStr bsJ
  pure { headings := headings, body := body, weights := weights,
         base_size := base }

/-- `FirecrawlService.extract_brand`, spacing block: `grid` renders
`baseUnit` (default `8`) through an f-string, and a truthy `borderRadius` is
assigned to `gap` afterwards (the assigned value is validated against the
declared `Optional[str]` type, modelled from the spec). -/
def buildSpacing (s : Json) : Except PyError BrandSpacing := do
  let buJ ← s.getD (toStr "baseUnit") (.num 8)
  let brJ ← s.getD (toStr "borderRadius") .null
  let gap ← if brJ.truthy then asOptStr brJ else pure none
  pure { grid := pyStr buJ ++ toStr "px", gap := gap }

/-- The `buttonPrimary` mapping of `FirecrawlService.extract_brand`: no
`border` is ever attached to the primary button. -/
def buildButtonP (btn : Json) (primaryColor : Str) :
    Except PyError ButtonStyle := do
  let bgJ ← btn.getD (toStr "background") (.str primaryColor)
  let tJ ← btn.getD (toStr "textColor") (.str (toStr "#ffffff"))
  let brJ ← btn.getD (toStr "borderRadius") (.str (toStr "4px"))
  let bg ← asStr bgJ
  let text ← asStr tJ
  let br ← asStr brJ
  pure { bg := bg, text := text, border_radius := br,
         padding := toStr "12px 24px", border := none }

/-- The `buttonSecondary` mapping of `FirecrawlService.extract_brand`:
transparent background default, primary-color text default, and `border`
taken from the vendor `borderColor`. -/
def buildButtonS (btn : Json) (primaryColor : Str) :
    Except PyError ButtonStyle := do
  let bgJ ← btn.getD (toStr "background") (.str (toStr "transparent"))
  let tJ ← btn.getD (toStr "textColor") (.str primaryColor)
  let brJ ← btn.getD (toStr "borderRadius") (.str (toStr "4px"))
  let boJ ← btn.getD (toStr "borderColor") .null
  let bg ← asStr bgJ
  let text ← asStr tJ
  let br ← asStr brJ
  let border ← asOptStr boJ
  pure { bg := bg, text := text, border_radius := br,
         padding := toStr "12px 24px", border := border }

/-- `FirecrawlService.extract_brand`, buttons block: each slot is filled
only when the corresponding component value is truthy. -/
def buildButtons (components : Json) (primaryColor : Str) :
    Except PyError BrandButtons := do
  let pJ ← components.getD (toStr "buttonPrimary") .null
  let primary ←
    if pJ.truthy then do
      let b ← buildButtonP pJ primaryColor
      pure (some b)
    else pure none
  let sJ ← components.getD (toStr "buttonSecondary") .null
  let secondary ←
    if sJ.truthy then do
      let b ← buildButtonS sJ primaryColor
      pure (some b)
    else pure none
  pure { primary := primary, secondary := secondary }

/-- The screenshot block of `FirecrawlService.extract_brand`: when requested
and `"screenshot" in data.get("data", dict())`, the raw value
`data["data"]["screenshot"]` is collected. -/
def getScreenshots (includeScreenshots : Bool) (data : Json) :
    Except PyError (List Json) := do
  if includeScreenshots then do
    let d1 ← data.getD (toStr "data") (.obj [])
    let b ← d1.hasKey (toStr "screenshot")
    if b then do
      let d2 ← data.index (toStr "data")
      let v ← d2.index (toStr "screenshot")
      pure [v]
    else pure []
  else pure []

/-- `FirecrawlService.extract_brand` applied to the decoded JSON body of a
successful transport call. -/
def extractBrand (url : Str) (includeScreenshots : Bool) (data : Json) :
    Except PyError BrandData := do
  let d1 ← data.getD (toStr "data") (.obj [])
  let branding ← d1.getD (toStr "branding") (.obj [])
  let screenshotsJ ← getScreenshots includeScreenshots data
  let colorsJ ← branding.getD (toStr "colors") (.obj [])
  let colors ← buildColors colorsJ
  let typoJ ← branding.getD (toStr "typography") (.obj [])
  let typography ← buildTypography typoJ
  let spacingJ ← branding.getD (toStr "spacing") (.obj [])
  let spacing ← buildSpacing spacingJ
  let componentsJ ← branding.getD (toStr "components") (.obj [])
  let buttons ← buildButtons componentsJ colors.primary
  let imagesJ ← branding.getD (toStr "images") (.obj [])
  let logoJ1 ← imagesJ.getD (toStr "logo") .null
  let logoJ2 ← branding.getD (toStr "logo") .null
  let faviconJ ← imagesJ.getD (toStr "favicon") .null
  let logo ← asOptStr (if logoJ1.truthy then logoJ1 else logoJ2)
  let favicon ← asOptStr faviconJ
  let screenshots ← asStrList screenshotsJ
  pure { url := url, colors := colors, typography := typography,
         spacing := spacing, buttons := buttons, logo_url := logo,
         favicon_url := favicon, screenshots := screenshots }

/-- Is the value a JSON string? -/
def isStrJ : Json → Bool
  | .str _ => true
  | _ => false

/-- Is the value a JSON string or `null` (an acceptable `Optional[str]`)? -/
def isOptStrJ : Json → Bool
  | .null => true
  | .str _ => true
  | _ => false

/-- Is the value a JSON number? -/
def isNumJ : Json → Bool
  | .num _ => true
  | _ => false

/-- Python `d.get(k, default)` restricted to dict field lists. -/
def resolveD (l : List (Str × Json)) (k : Str) (d : Json) : Json :=
  (lookupA l k).getD d

/-- The fields of an object value (empty for non-objects). -/
def objFieldsD : Json → List (Str × Json)
  | .obj l => l
  | _ => []

/-- Reads a string value, defaulting arbitrarily off strings. -/
def strD : Json → Str
  | .str s => s
  | _ => []

/-- Reads an optional string value. -/
def optStrD : Json → Option Str
  | .str s => some s
  | _ => none

/-- Reads a numeric value, defaulting arbitrarily off numbers. -/
def numD : Json → Int
  | .num n => n
  | _ => 0

/-- The string stored at a key, when the key holds a string. -/
def stringAt (l : List (Str × Json)) (k : Str) : Option Str :=
  match lookupA l k with
  | some (.str s) => some s
  | _ => none

/-- The optional string stored at a key, with a default for an absent key
(`null` reads as `none`). -/
def optStringAtD (l : List (Str × Json)) (k : Str) (d : Option Str) :
    Option Str :=
  match lookupA l k with
  | some v => optStrD v
  | none => d

/-- The key is absent or holds a string. -/
def keyStrOrAbsent (l : List (Str × Json)) (k : Str) : Bool :=
  match lookupA l k with
  | none => true
  | some v => isStrJ v

/-- The key is absent, `null`, or holds a string. -/
def keyOptStrOrAbsent (l : List (Str × Json)) (k : Str) : Bool :=
  match lookupA l k with
  | none => true
  | some v => isOptStrJ v

/-- Well-formedness of the vendor `colors` object: its values are strings,
so reading any color field and building `palette : List[str]` from the value
list succeeds. -/
def wfColors : Json → Bool
  | .obj l => l.all fun p => isStrJ p.2
  | _ => false

/-- Well-formedness of the resolved `fontWeights` value: an object with
numeric values. -/
def wfFW : Json → Bool
  | .obj l => l.all fun p => isNumJ p.2
  | _ => false

/-- Shape of a usable `fontFamilies` value. -/
def wfFFshape : Json → Bool
  | .obj ffl =>
    keyStrOrAbsent ffl (toStr "heading") &&
      keyStrOrAbsent ffl (toStr "primary")
  | _ => false

/-- Shape of a usable `fontSizes` value. -/
def wfFSshape : Json → Bool
  | .obj fsl => keyOptStrOrAbsent fsl (toStr "body")
  | _ => false

/-- Well-formedness of the vendor `typography` object. -/
def wfTypo : Json → Bool
  | .obj l =>
    wfFFshape (resolveD l (toStr "fontFamilies") (.obj [])) &&
    wfFW (resolveD l (toStr "fontWeights") (.obj [])) &&
    wfFSshape (resolveD l (toStr "fontSizes") (.obj []))
  | _ => false

/-- Shape of a usable `borderRadius` entry: a truthy value must be a string
(it is assigned to `gap`). -/
def wfBrShape : Option Json → Bool
  | none => true
  | some v => if v.truthy then isStrJ v else true

/-- Well-formedness of the vendor `spacing` object. -/
def wfSpacing : Json → Bool
  | .obj l => wfBrShape (lookupA l (toStr "borderRadius"))
  | _ => false

/-- Shape of a truthy `buttonPrimary` component. -/
def wfBtnPShape : Json → Bool
  | .obj l =>
    keyStrOrAbsent l (toStr "background") &&
      keyStrOrAbsent l (toStr "textColor") &&
      keyStrOrAbsent l (toStr "borderRadius")
  | _ => false

/-- Well-formedness of a `buttonPrimary` component value. -/
def wfBtnP (j : Json) : Bool :=
  if j.truthy then wfBtnPShape j else true

/-- Shape of a truthy `buttonSecondary` component. -/
def wfBtnSShape : Json → Bool
  | .obj l =>
    keyStrOrAbsent l (toStr "background") &&
      keyStrOrAbsent l (toStr "textColor") &&
      keyStrOrAbsent l (toStr "borderRadius") &&
      keyOptStrOrAbsent l (toStr "borderColor")
  | _ => false

/-- Well-formedness of a `buttonSecondary` component value. -/
def wfBtnS (j : Json) : Bool :=
  if j.truthy then wfBtnSShape j else true

/-- Well-formedness of the vendor `components` object. -/
def wfComponents : Json → Bool
  | .obj l =>
    wfBtnP (resolveD l (toStr "buttonPrimary") .null) &&
      wfBtnS (resolveD l (toStr "buttonSecondary") .null)
  | _ => false

/-- Well-formedness of the vendor `images` object together with the
top-level `logo` fallback. -/
def wfImages (i : Json) (logoFallback : Json) : Bool :=
  match i with
  | .obj il =>
    (if (resolveD il (toStr "logo") .null).truthy then
       isOptStrJ (resolveD il (toStr "logo") .null)
     else isOptStrJ logoFallback) &&
    isOptStrJ (resolveD il (toStr "favicon") .null)
  | _ => false

/-- Well-formedness of the whole `branding` object. -/
def wfBranding (bl : List (Str × Json)) : Bool :=
  wfColors (resolveD bl (toStr "colors") (.obj [])) &&
  wfTypo (resolveD bl (toStr "typography") (.obj [])) &&
  wfSpacing (resolveD bl (toStr "spacing") (.obj [])) &&
  wfComponents (resolveD bl (toStr "components") (.obj [])) &&
  wfImages (resolveD bl (toStr "images") (.obj []))
    (resolveD bl (toStr "logo") .null)

/-- Shape of a usable `screenshot` entry. -/
def wfShotShape : Option Json → Bool
  | none => true
  | some v => isStrJ v

/-- Shape of a usable resolved `branding` value. -/
def wfBrandingShape : Json → Bool
  | .obj bl => wfBranding bl
  | _ => false

/-- Well-formedness of the `data` sub-object of the scrape response. -/
def wfData (il : List (Str × Json)) : Bool :=
  wfShotShape (lookupA il (toStr "screenshot")) &&
  wfBrandingShape (resolveD il (toStr "branding") (.obj []))

/-- Shape of a usable resolved `data` value. -/
def wfDataShape : Json → Bool
  | .obj il => wfData il
  | _ => false

/-- Well-formedness of a whole structured-scrape response body: every
sub-object that is present has the container shape and leaf types the
extraction code reads; any sub-object may be missing. -/
def wfScrape : Json → Bool
  | .obj dl => wfDataShape (resolveD dl (toStr "data") (.obj []))
  | _ => false

/-- The resolved `data` sub-object of a scrape response body. -/
def dataObj (data : Json) : Json :=
  resolveD (objFieldsD data) (toStr "data") (.obj [])

/-- The resolved `branding` sub-object of a scrape response body. -/
def brandingObj (data : Json) : Json :=
  resolveD (objFieldsD (dataObj data)) (toStr "branding") (.obj [])

/-- A resolved field of the `branding` sub-object. -/
def brandingField (data : Json) (k : Str) : Json :=
  resolveD (objFieldsD (brandingObj data)) k (.obj [])

/-- The raw screenshot values collected from a present `screenshot` entry. -/
def shotVals : Option Json → List Json
  | some v => [v]
  | none => []

/-- The screenshot strings collected from a present `screenshot` entry. -/
def shotStrs : Option Json → List Str
  | some v => [strD v]
  | none => []

/-- The colors the structured extractor produces, as a total function of the
vendor colors fields. -/
def modelColors (cl : List (Str × Json)) : BrandColors :=
  { primary := strD (resolveD cl (toStr "primary") (.str (toStr "#000000")))
    secondary := optStrD (resolveD cl (toStr "secondary") .null)
    accent := optStrD (resolveD cl (toStr "accent") .null)
    background := optStrD (resolveD cl (toStr "background") .null)
    text := optStrD (resolveD cl (toStr "textPrimary") .null)
    palette := cl.map fun p => strD p.2 }

/-- The typography the structured extractor produces, as a total function of
the vendor typography fields. -/
def modelTypography (tl : List (Str × Json)) : BrandTypography :=
  { headings := strD (resolveD (objFieldsD (resolveD tl (toStr "fontFamilies")
      (.obj []))) (toStr "heading")
      (resolveD (objFieldsD (resolveD tl (toStr "fontFamilies") (.obj [])))
        (toStr "primary") (.str (toStr "sans-serif"))))
    body := strD (resolveD (objFieldsD (resolveD tl (toStr "fontFamilies")
      (.obj []))) (toStr "primary") (.str (toStr "sans-serif")))
    weights :=
      if (resolveD tl (toStr "fontWeights") (.obj [])).truthy then
        (objFieldsD (resolveD tl (toStr "fontWeights") (.obj []))).map
          fun p => numD p.2
      else [400, 600, 700]
    base_size := optStrD (resolveD (objFieldsD (resolveD tl (toStr "fontSizes")
      (.obj []))) (toStr "body") (.str (toStr "16px"))) }

/-- The spacing the structured extractor produces. -/
def modelSpacing (sl : List (Str × Json)) : BrandSpacing :=
  { grid := pyStr (resolveD sl (toStr "baseUnit") (.num 8)) ++ toStr "px"
    gap :=
      if (resolveD sl (toStr "borderRadius") .null).truthy then
        optStrD (resolveD sl (toStr "borderRadius") .null)
      else none }

/-- The primary button the structured extractor produces from a truthy
component object. -/
def modelButtonP (btnl : List (Str × Json)) (primaryColor : Str) :
    ButtonStyle :=
  { bg := strD (resolveD btnl (toStr "background") (.str primaryColor))
    text := strD (resolveD btnl (toStr "textColor") (.str (toStr "#ffffff")))
    border_radius := strD (resolveD btnl (toStr "borderRadius")
      (.str (toStr "4px")))
    padding := toStr "12px 24px"
    border := none }

/-- The secondary button the structured extractor produces from a truthy
component object. -/
def modelButtonS (btnl : List (Str × Json)) (primaryColor : Str) :
    ButtonStyle :=
  { bg := strD (resolveD btnl (toStr "background")
      (.str (toStr "transparent")))
    text := strD (resolveD btnl (toStr "textColor") (.str primaryColor))
    border_radius := strD (resolveD btnl (toStr "borderRadius")
      (.str (toStr "4px")))
    padding := toStr "12px 24px"
    border := optStrD (resolveD btnl (toStr "borderColor") .null) }

/-- The buttons the structured extractor produces. -/
def modelButtons (compl : List (Str × Json)) (primaryColor : Str) :
    BrandButtons :=
  { primary :=
      if (resolveD compl (toStr "buttonPrimary") .null).truthy then
        some (modelButtonP (objFieldsD (resolveD compl (toStr "buttonPrimary")
          .null)) primaryColor)
      else none
    secondary :=
      if (resolveD compl (toStr "buttonSecondary") .null).truthy then
        some (modelButtonS (objFieldsD (resolveD compl
          (toStr "buttonSecondary") .null)) primaryColor)
      else none }

/-- The whole `BrandData` the structured extractor produces on a well-formed
response body. -/
def extractModel (url : Str) (includeScreenshots : Bool) (data : Json) :
    BrandData :=
  { url := url
    colors := modelColors (objFieldsD (brandingField data (toStr "colors")))
    typography := modelTypography (objFieldsD (brandingField data
      (toStr "typography")))
    spacing := modelSpacing (objFieldsD (brandingField data
      (toStr "spacing")))
    buttons := modelButtons (objFieldsD (brandingField data
      (toStr "components")))
      (modelColors (objFieldsD (brandingField data
        (toStr "colors")))).primary
    logo_url :=
      optStrD (if (resolveD (objFieldsD (brandingField data
          (toStr "images"))) (toStr "logo") .null).truthy then
        resolveD (objFieldsD (brandingField data (toStr "images")))
          (toStr "logo") .null
      else resolveD (objFieldsD (brandingObj data)) (toStr "logo") .null)
    favicon_url := optStrD (resolveD (objFieldsD (brandingField data
      (toStr "images"))) (toStr "favicon") .null)
    screenshots :=
      if includeScreenshots then
        shotStrs (lookupA (objFieldsD (dataObj data)) (toStr "screenshot"))
      else [] }

/-- The entry is absent or holds a non-`null` value. -/
def notNullOpt : Option Json → Bool
  | some .null => false
  | _ => true

/-- Well-formedness of the vision `colors` object: values are strings or
`null`, and `primary`, when present, is a string. -/
def wfVColors : Json → Bool
  | .obj cl =>
    (cl.all fun p => isOptStrJ p.2) &&
      notNullOpt (lookupA cl (toStr "primary"))
  | _ => false

/-- Shape of a usable `weights` entry. -/
def wfWeightsShape : Option Json → Bool
  | none => true
  | some (.arr ws) => ws.all isNumJ
  | some _ => false

/-- Well-formedness of the vision `typography` object. -/
def wfVTypo : Json → Bool
  | .obj tl =>
    keyStrOrAbsent tl (toStr "headings") &&
    keyStrOrAbsent tl (toStr "body") &&
    wfWeightsShape (lookupA tl (toStr "weights"))
  | _ => false

/-- Shape of one truthy vision button sub-object. -/
def wfVBtnShape : Json → Bool
  | .obj l =>
    keyStrOrAbsent l (toStr "bg") &&
      keyStrOrAbsent l (toStr "text") &&
      keyStrOrAbsent l (toStr "border_radius") &&
      (if (resolveD l (toStr "has_border") .null).truthy then
         keyOptStrOrAbsent l (toStr "border")
       else true)
  | _ => false

/-- Well-formedness of one vision button sub-object value. -/
def wfVBtn (j : Json) : Bool :=
  if j.truthy then wfVBtnShape j else true

/-- Well-formedness of the vision `buttons` object. -/
def wfVButtons : Json → Bool
  | .obj bl =>
    wfVBtn (resolveD bl (toStr "primary") .null) &&
      wfVBtn (resolveD bl (toStr "secondary") .null)
  | _ => false

/-- Well-formedness of a parsed vision-model payload. -/
def wfVision : Json → Bool
  | .obj l =>
    wfVColors (resolveD l (toStr "colors") (.obj [])) &&
    wfVTypo (resolveD l (toStr "typography") (.obj [])) &&
    wfVButtons (resolveD l (toStr "buttons") (.obj []))
  | _ => false

/-- The colors the vision parser produces, as a total function of the
payload's colors fields: the palette takes the five canonical fields in a
fixed order and keeps only truthy values. -/
def vModelColors (cl : List (Str × Json)) : BrandColors :=
  { primary := strD (resolveD cl (toStr "primary") (.str (toStr "#000000")))
    secondary := optStrD (resolveD cl (toStr "secondary") .null)
    accent := optStrD (resolveD cl (toStr "accent") .null)
    background := optStrD (resolveD cl (toStr "background")
      (.str (toStr "#ffffff")))
    text := optStrD (resolveD cl (toStr "text") (.str (toStr "#000000")))
    palette :=
      (([resolveD cl (toStr "primary") .null,
         resolveD cl (toStr "secondary") .null,
         resolveD cl (toStr "accent") .null,
         resolveD cl (toStr "background") .null,
         resolveD cl (toStr "text") .null]).filter Json.truthy).map strD }

/-- The integers of a JSON array (total reading). -/
def intListD : Json → List Int
  | .arr l => l.map numD
  | _ => []

/-- The typography the vision parser produces. -/
def vModelTypo (tl : List (Str × Json)) : BrandTypography :=
  { headings := strD (resolveD tl (toStr "headings")
      (.str (toStr "sans-serif")))
    body := strD (resolveD tl (toStr "body") (.str (toStr "sans-serif")))
    weights := intListD (resolveD tl (toStr "weights")
      (.arr [.num 400, .num 600, .num 700]))
    base_size := none }

/-- One button of the vision parser, from a truthy sub-object. -/
def vModelButton (btnl : List (Str × Json)) (bgDefault textDefault : Str) :
    ButtonStyle :=
  { bg := strD (resolveD btnl (toStr "bg") (.str bgDefault))
    text := strD (resolveD btnl (toStr "text") (.str textDefault))
    border_radius := strD (resolveD btnl (toStr "border_radius")
      (.str (toStr "4px")))
    padding := toStr "12px 24px"
    border :=
      if (resolveD btnl (toStr "has_border") .null).truthy then
        optStrD (resolveD btnl (toStr "border") .null)
      else none }

/-- The buttons the vision parser produces. -/
def vModelButtons (bl : List (Str × Json)) (primaryColor : Str) :
    BrandButtons :=
  { primary :=
      if (resolveD bl (toStr "primary") .null).truthy then
        some (vModelButton (objFieldsD (resolveD bl (toStr "primary")
          .null)) primaryColor (toStr "#ffffff"))
      else none
    secondary :=
      if (resolveD bl (toStr "secondary") .null).truthy then
        some (vModelButton (objFieldsD (resolveD bl (toStr "secondary")
          .null)) (toStr "transparent") primaryColor)
      else none }

/-- The whole `BrandData` the vision parser produces on a well-formed parsed
payload. -/
def vModel (j : Json) (sourceUrl screenshotUrl : Str) : BrandData :=
  { url := sourceUrl
    colors := vModelColors (objFieldsD (resolveD (objFieldsD j)
      (toStr "colors") (.obj [])))
    typography := vModelTypo (objFieldsD (resolveD (objFieldsD j)
      (toStr "typography") (.obj [])))
    spacing := {}
    buttons := vModelButtons (objFieldsD (resolveD (objFieldsD j)
      (toStr "buttons") (.obj [])))
      (vModelColors (objFieldsD (resolveD (objFieldsD j)
        (toStr "colors") (.obj [])))).primary
    screenshots := [screenshotUrl] }

/-- The structured payload of the end-to-end scenario in spec section 8. -/
def scenarioPayload : Json :=
  .obj [(toStr "data", .obj [(toStr "branding", .obj [
    (toStr "colors", .obj [
      (toStr "primary", .str (toStr "#111111")),
      (toStr "textPrimary", .str (toStr "#222222"))]),
    (toStr "components", .obj [(toStr "buttonPrimary", .obj [
      (toStr "background", .str (toStr "#111111")),
      (toStr "textColor", .str (toStr "#ffffff")),
      (toStr "borderRadius", .str (toStr "8px"))])])])])]

/-- Hex digit value (`0` for non-hex characters). -/
def hexDigitVal (c : Char) : Nat :=
  if 48 ≤ c.toNat ∧ c.toNat ≤ 57 then c.toNat - 48
  else if 97 ≤ c.toNat ∧ c.toNat ≤ 102 then c.toNat - 87
  else if 65 ≤ c.toNat ∧ c.toNat ≤ 70 then c.toNat - 55
  else 0

/-- Drops a leading `#` from a hex color literal. -/
def dropHash : Str → Str
  | '#' :: r => r
  | r => r

/-- Modelled from the spec: parsing of a `#RRGGBB` hex color into its RGB
channels, for the similarity scorer of spec section 4.3 (its source file is
not under `src/`). -/
def parseHexColor (s : Str) : ℚ × ℚ × ℚ :=
  match dropHash s with
  | [c1, c2, c3, c4, c5, c6] =>
    (((16 * hexDigitVal c1 + hexDigitVal c2 : ℕ) : ℚ),
     ((16 * hexDigitVal c3 + hexDigitVal c4 : ℕ) : ℚ),
     ((16 * hexDigitVal c5 + hexDigitVal c6 : ℕ) : ℚ))
  | _ => (0, 0, 0)

/-- Modelled from the spec: `calculate_color_similarity` of spec section 4.3
(its source file is absent from `src/`): a normalized squared Euclidean RGB
distance mapped through the decreasing function `1 - d` into `[0, 1]`. -/
def colorSimilarity (a b : Str) : ℚ :=
  1 - (((parseHexColor a).1 - (parseHexColor b).1) ^ 2 +
       ((parseHexColor a).2.1 - (parseHexColor b).2.1) ^ 2 +
       ((parseHexColor a).2.2 - (parseHexColor b).2.2) ^ 2) / 195075

/-- Each hex digit value is at most 15. -/
theorem hexDigitVal_le (c : Char) : hexDigitVal c ≤ 15 := by
  unfold hexDigitVal
  split
  · omega
  · split
    · omega
    · split
      · omega
      · omega

/-- Every channel produced by `parseHexColor` lies in `[0, 255]`. -/
theorem parseHexColor_bounds (s : Str) :
    0 ≤ (parseHexColor s).1 ∧ (parseHexColor s).1 ≤ 255 ∧
    0 ≤ (parseHexColor s).2.1 ∧ (parseHexColor s).2.1 ≤ 255 ∧
    0 ≤ (parseHexColor s).2.2 ∧ (parseHexColor s).2.2 ≤ 255 := by
  unfold parseHexColor
  split
  · rename_i c1 c2 c3 c4 c5 c6 heq
    have h1 := hexDigitVal_le c1
    have h2 := hexDigitVal_le c2
    have h3 := hexDigitVal_le c3
    have h4 := hexDigitVal_le c4
    have h5 := hexDigitVal_le c5
    have h6 := hexDigitVal_le c6
    refine ⟨by positivity, ?_, by positivity, ?_, by positivity, ?_⟩ <;>
      · simp only
        rw [show ((255 : ℚ)) = ((255 : ℕ) : ℚ) by norm_num]
        exact_mod_cast by omega
  · norm_num

/-- C9: the color-similarity scorer is reflexive with value `1.0`, symmetric,
scores black against white below `0.5` and `#FF0000` against `#FF1111` above
`0.9`, and every result lies in `[0, 1]`. -/
theorem color_similarity_contract :
    (∀ a : Str, colorSimilarity a a = 1) ∧
    (∀ a b : Str, colorSimilarity a b = colorSimilarity b a) ∧
    colorSimilarity (toStr "#000000") (toStr "#FFFFFF") < 1 / 2 ∧
    colorSimilarity (toStr "#FF0000") (toStr "#FF1111") > 9 / 10 ∧
    (∀ a b : Str, 0 ≤ colorSimilarity a b ∧ colorSimilarity a b ≤ 1) := by
  refine ⟨fun a => by simp [colorSimilarity], fun a b => by
    simp only [colorSimilarity]; ring, ?_, ?_, ?_⟩
  · have h0 : parseHexColor (toStr "#000000") = (0, 0, 0) := by
      simp [parseHexColor, dropHash, hexDigitVal, toStr]
    have h1 : parseHexColor (toStr "#FFFFFF") = (255, 255, 255) := by
      simp [parseHexColor, dropHash, hexDigitVal, toStr]
    rw [colorSimilarity, h0, h1]
    norm_num
  · have h0 : parseHexColor (toStr "#FF0000") = (255, 0, 0) := by
      simp [parseHexColor, dropHash, hexDigitVal, toStr]
    have h1 : parseHexColor (toStr "#FF1111") = (255, 17, 17) := by
      simp [parseHexColor, dropHash, hexDigitVal, toStr]
    rw [colorSimilarity, h0, h1]
    norm_num
  · intro a b
    obtain ⟨a1, a2, a3, a4, a5, a6⟩ := parseHexColor_bounds a
    obtain ⟨b1, b2, b3, b4, b5, b6⟩ := parseHexColor_bounds b
    have hsq : ∀ x y : ℚ, 0 ≤ x → x ≤ 255 → 0 ≤ y → y ≤ 255 →
        (x - y) ^ 2 ≤ 65025 := by
      intro x y hx hx2 hy hy2
      nlinarith [sq_nonneg (x - y), sq_nonneg (x + y - 255)]
    have hp1 := hsq _ _ a1 a2 b1 b2
    have hp2 := hsq _ _ a3 a4 b3 b4
    have hp3 := hsq _ _ a5 a6 b5 b6
    have hn1 := sq_nonneg ((parseHexColor a).1 - (parseHexColor b).1)
    have hn2 := sq_nonneg ((parseHexColor a).2.1 - (parseHexColor b).2.1)
    have hn3 := sq_nonneg ((parseHexColor a).2.2 - (parseHexColor b).2.2)
    constructor
    · rw [colorSimilarity]
      have : (((parseHexColor a).1 - (parseHexColor b).1) ^ 2 +
          ((parseHexColor a).2.1 - (parseHexColor b).2.1) ^ 2 +
          ((parseHexColor a).2.2 - (parseHexColor b).2.2) ^ 2) / 195075 ≤ 1 := by
        rw [div_le_one (by norm_num)]
        linarith
      linarith
    · rw [colorSimilarity]
      have : 0 ≤ (((parseHexColor a).1 - (parseHexColor b).1) ^ 2 +
          ((parseHexColor a).2.1 - (parseHexColor b).2.1) ^ 2 +
          ((parseHexColor a).2.2 - (parseHexColor b).2.2) ^ 2) / 195075 := by
        positivity
      linarith

/-- Binding a success value applies the continuation. -/
theorem ok_bind {α β : Type} (a : α) (f : α → Except PyError β) :
    ((Except.ok a : Except PyError α) >>= f) = f a := rfl

/-- `pure` is `Except.ok`. -/
theorem pure_ok {α : Type} (a : α) :
    (pure a : Except PyError α) = Except.ok a := rfl

/-- `get` on a dict value resolves the key with the default. -/
theorem getD_obj (l : List (Str × Json)) (k : Str) (d : Json) :
    Json.getD (.obj l) k d = .ok (resolveD l k d) := rfl

/-- A successful lookup locates a member of the field list. -/
theorem lookupA_mem {l : List (Str × Json)} {k : Str} {v : Json}
    (h : lookupA l k = some v) : (k, v) ∈ l := by
  induction l with
  | nil => simp [lookupA] at h
  | cons p rest ih =>
    rw [lookupA] at h
    by_cases hp : p.1 = k
    · rw [if_pos hp] at h
      have hv : p.2 = v := by injection h
      have hpv : (k, v) = p := by
        rw [← hp, ← hv]
      rw [hpv]
      exact List.mem_cons_self p rest
    · rw [if_neg hp] at h
      exact List.mem_cons_of_mem p (ih h)

/-- String validation succeeds on string values. -/
theorem asStr_isStr {j : Json} (h : isStrJ j = true) :
    asStr j = .ok (strD j) := by
  cases j <;> simp [isStrJ] at h <;> rfl

/-- Optional-string validation succeeds on strings and `null`. -/
theorem asOptStr_isOptStr {j : Json} (h : isOptStrJ j = true) :
    asOptStr j = .ok (optStrD j) := by
  cases j <;> simp [isOptStrJ] at h <;> rfl

/-- Integer validation succeeds on numbers. -/
theorem asInt_isNum {j : Json} (h : isNumJ j = true) :
    asInt j = .ok (numD j) := by
  cases j <;> simp [isNumJ] at h <;> rfl

/-- A resolved value is a string when all values are strings and the
default is. -/
theorem isStr_resolve_all {cl : List (Str × Json)}
    (hall : ∀ p ∈ cl, isStrJ p.2 = true) (k : Str) (d : Json)
    (hd : isStrJ d = true) : isStrJ (resolveD cl k d) = true := by
  rw [resolveD]
  rcases hl : lookupA cl k with _ | v
  · exact hd
  · exact hall _ (lookupA_mem hl)

/-- A key-conditioned string resolution is a string. -/
theorem isStr_resolve_key {cl : List (Str × Json)} {k : Str}
    (hk : keyStrOrAbsent cl k = true) (d : Json) (hd : isStrJ d = true) :
    isStrJ (resolveD cl k d) = true := by
  rw [resolveD]
  rw [keyStrOrAbsent] at hk
  rcases hl : lookupA cl k with _ | v
  · exact hd
  · rw [hl] at hk
    exact hk

/-- A key-conditioned optional-string resolution with `null` default is a
string or `null`. -/
theorem isOptStr_resolve_key {cl : List (Str × Json)} {k : Str}
    (hk : keyOptStrOrAbsent cl k = true) :
    isOptStrJ (resolveD cl k .null) = true := by
  rw [resolveD]
  rw [keyOptStrOrAbsent] at hk
  rcases hl : lookupA cl k with _ | v
  · rfl
  · rw [hl] at hk
    exact hk

/-- An all-strings resolution with `null` default is a string or `null`. -/
theorem isOptStr_resolve_all {cl : List (Str × Json)}
    (hall : ∀ p ∈ cl, isStrJ p.2 = true) (k : Str) :
    isOptStrJ (resolveD cl k .null) = true := by
  rw [resolveD]
  rcases hl : lookupA cl k with _ | v
  · rfl
  · have := hall _ (lookupA_mem hl)
    cases v <;> simp [isStrJ] at this <;> rfl

/-- A string value is an acceptable optional string. -/
theorem isOptStr_of_isStr {j : Json} (h : isStrJ j = true) :
    isOptStrJ j = true := by
  cases j <;> simp [isStrJ] at h <;> rfl

/-- Mapped string validation over all-string values. -/
theorem asStrList_map {js : List Json} (h : ∀ j ∈ js, isStrJ j = true) :
    asStrList js = .ok (js.map strD) := by
  induction js with
  | nil => rfl
  | cons a rest ih =>
    rw [asStrList, List.mapM_cons, asStr_isStr (h a (by simp)),
      show rest.mapM asStr = asStrList rest from rfl,
      ih fun j hj => h j (by simp [hj])]
    rfl

/-- Mapped integer validation over all-number values. -/
theorem asIntList_map {js : List Json} (h : ∀ j ∈ js, isNumJ j = true) :
    js.mapM asInt = .ok (js.map numD) := by
  induction js with
  | nil => rfl
  | cons a rest ih =>
    rw [List.mapM_cons, asInt_isNum (h a (by simp)),
      ih fun j hj => h j (by simp [hj])]
    rfl

/-- Variant of `isOptStr_resolve_key` with an arbitrary acceptable
default. -/
theorem isOptStr_resolve_keyD {cl : List (Str × Json)} {k : Str}
    (hk : keyOptStrOrAbsent cl k = true) (d : Json)
    (hd : isOptStrJ d = true) : isOptStrJ (resolveD cl k d) = true := by
  rw [resolveD]
  rw [keyOptStrOrAbsent] at hk
  rcases hl : lookupA cl k with _ | v
  · exact hd
  · rw [hl] at hk
    exact hk

/-- Key membership testing agrees with lookup success. -/
theorem any_eq_lookup (l : List (Str × Json)) (k : Str) :
    (l.any fun p => p.1 == k) = (lookupA l k).isSome := by
  induction l with
  | nil => rfl
  | cons p rest ih =>
    by_cases hpk : p.1 = k
    · simp [lookupA, hpk]
    · simp [lookupA, hpk, ih]

/-- The colors stage succeeds on a well-formed colors object and produces
the modelled colors. -/
theorem buildColors_ok (cl : List (Str × Json))
    (h : wfColors (.obj cl) = true) :
    buildColors (.obj cl) = .ok (modelColors cl) := by
  have hall : ∀ p ∈ cl, isStrJ p.2 = true := fun p hp =>
    List.all_eq_true.mp (by rw [wfColors] at h; exact h) p hp
  cases cl with
  | nil => rfl
  | cons q qs =>
    rw [buildColors]
    simp only [getD_obj, ok_bind]
    rw [show Json.truthy (.obj (q :: qs)) = true from rfl]
    simp only [if_true]
    rw [Json.valuesE]
    simp only [ok_bind]
    rw [asStr_isStr (isStr_resolve_all hall (toStr "primary")
      (.str (toStr "#000000")) rfl)]
    simp only [ok_bind]
    rw [asOptStr_isOptStr (isOptStr_resolve_all hall (toStr "secondary"))]
    simp only [ok_bind]
    rw [asOptStr_isOptStr (isOptStr_resolve_all hall (toStr "accent"))]
    simp only [ok_bind]
    rw [asOptStr_isOptStr (isOptStr_resolve_all hall (toStr "background"))]
    simp only [ok_bind]
    rw [asOptStr_isOptStr (isOptStr_resolve_all hall (toStr "textPrimary"))]
    simp only [ok_bind]
    rw [asStrList_map (by
      intro j hj
      rw [List.mem_map] at hj
      obtain ⟨p, hp, hpj⟩ := hj
      rw [← hpj]
      exact hall p hp)]
    simp only [ok_bind, pure_ok]
    rw [modelColors]
    simp [List.map_map, Function.comp]

/-- The typography stage succeeds on a well-formed typography object and
produces the modelled typography. -/
theorem buildTypography_ok (tl : List (Str × Json))
    (h : wfTypo (.obj tl) = true) :
    buildTypography (.obj tl) = .ok (modelTypography tl) := by
  rw [wfTypo] at h
  rcases hff : resolveD tl (toStr "fontFamilies") (.obj [])
    with _|_|_|_|_|ffl
  all_goals rw [hff] at h
  all_goals simp only [wfFFshape, Bool.false_and, Bool.false_eq_true] at h
  rcases hfw : resolveD tl (toStr "fontWeights") (.obj [])
    with _|_|_|_|_|fwl
  all_goals rw [hfw] at h
  all_goals simp only [wfFW, Bool.and_false, Bool.false_and,
    Bool.false_eq_true] at h
  rcases hfs : resolveD tl (toStr "fontSizes") (.obj [])
    with _|_|_|_|_|fsl
  all_goals rw [hfs] at h
  all_goals simp only [wfFSshape, Bool.and_false, Bool.false_eq_true] at h
  simp only [Bool.and_eq_true] at h
  obtain ⟨⟨⟨hhd, hpr⟩, hwts⟩, hbody⟩ := h
  rw [buildTypography]
  simp only [getD_obj, ok_bind]
  rw [hff, hfw, hfs]
  simp only [getD_obj, ok_bind]
  have hinner : isStrJ (resolveD ffl (toStr "primary")
      (.str (toStr "sans-serif"))) = true :=
    isStr_resolve_key hpr (.str (toStr "sans-serif")) rfl
  have hwall : ∀ j ∈ fwl.map Prod.snd, isNumJ j = true := by
    intro j hj
    rw [List.mem_map] at hj
    obtain ⟨p, hp, hpj⟩ := hj
    rw [← hpj]
    exact (List.all_eq_true.mp hwts) p hp
  cases fwl with
  | nil =>
    rw [if_neg (by decide)]
    simp only [pure_ok, ok_bind]
    rw [show (List.mapM asInt [Json.num 400, Json.num 600, Json.num 700]) =
      (.ok [(400 : Int), 600, 700] : Except PyError (List Int)) from rfl]
    simp only [ok_bind]
    rw [asStr_isStr (isStr_resolve_key hhd _ hinner)]
    simp only [ok_bind]
    rw [asStr_isStr hinner]
    simp only [ok_bind]
    rw [asOptStr_isOptStr (isOptStr_resolve_keyD hbody
      (.str (toStr "16px")) rfl)]
    simp only [ok_bind, pure_ok]
    rw [modelTypography, hff, hfw, hfs]
    rfl
  | cons q qs =>
    rw [if_pos (show (Json.obj (q :: qs)).truthy = true from rfl)]
    rw [Json.valuesE]
    simp only [ok_bind]
    rw [asIntList_map hwall]
    simp only [ok_bind]
    rw [asStr_isStr (isStr_resolve_key hhd _ hinner)]
    simp only [ok_bind]
    rw [asStr_isStr hinner]
    simp only [ok_bind]
    rw [asOptStr_isOptStr (isOptStr_resolve_keyD hbody
      (.str (toStr "16px")) rfl)]
    simp only [ok_bind, pure_ok]
    rw [modelTypography, hff, hfw, hfs]
    simp only [objFieldsD, List.map_map]
    rfl

/-- The spacing stage succeeds on a well-formed spacing object and produces
the modelled spacing. -/
theorem buildSpacing_ok (sl : List (Str × Json))
    (h : wfSpacing (.obj sl) = true) :
    buildSpacing (.obj sl) = .ok (modelSpacing sl) := by
  rw [wfSpacing] at h
  rw [buildSpacing]
  simp only [getD_obj, ok_bind]
  have hres : resolveD sl (toStr "borderRadius") .null =
      (lookupA sl (toStr "borderRadius")).getD .null := rfl
  rcases hbr : lookupA sl (toStr "borderRadius") with _ | v
  · rw [hres, hbr]
    simp only [Option.getD_none]
    rw [show Json.truthy .null = false from rfl]
    simp only [Bool.false_eq_true, if_false, ok_bind, pure_ok]
    rw [modelSpacing]
    simp [resolveD, hbr, Json.truthy]
  · rw [hbr] at h
    rw [hres, hbr]
    simp only [Option.getD_some]
    rcases ht : v.truthy with _ | _
    · rw [if_neg (by decide)]
      simp only [ok_bind, pure_ok]
      rw [modelSpacing]
      simp [resolveD, hbr, ht]
    · have hv : isStrJ v = true := by
        rw [wfBrShape, ht, if_pos rfl] at h
        exact h
      rw [if_pos rfl]
      rw [asOptStr_isOptStr (isOptStr_of_isStr hv)]
      simp only [ok_bind, pure_ok]
      rw [modelSpacing]
      simp [resolveD, hbr, ht]

/-- The primary-button construction succeeds on well-typed component
fields. -/
theorem buildButtonP_ok (btnl : List (Str × Json)) (pc : Str)
    (h1 : keyStrOrAbsent btnl (toStr "background") = true)
    (h2 : keyStrOrAbsent btnl (toStr "textColor") = true)
    (h3 : keyStrOrAbsent btnl (toStr "borderRadius") = true) :
    buildButtonP (.obj btnl) pc = .ok (modelButtonP btnl pc) := by
  rw [buildButtonP]
  simp only [getD_obj, ok_bind]
  rw [asStr_isStr (isStr_resolve_key h1 (.str pc) rfl)]
  simp only [ok_bind]
  rw [asStr_isStr (isStr_resolve_key h2 (.str (toStr "#ffffff")) rfl)]
  simp only [ok_bind]
  rw [asStr_isStr (isStr_resolve_key h3 (.str (toStr "4px")) rfl)]
  simp only [ok_bind, pure_ok]
  rfl

/-- The secondary-button construction succeeds on well-typed component
fields. -/
theorem buildButtonS_ok (btnl : List (Str × Json)) (pc : Str)
    (h1 : keyStrOrAbsent btnl (toStr "background") = true)
    (h2 : keyStrOrAbsent btnl (toStr "textColor") = true)
    (h3 : keyStrOrAbsent btnl (toStr "borderRadius") = true)
    (h4 : keyOptStrOrAbsent btnl (toStr "borderColor") = true) :
    buildButtonS (.obj btnl) pc = .ok (modelButtonS btnl pc) := by
  rw [buildButtonS]
  simp only [getD_obj, ok_bind]
  rw [asStr_isStr (isStr_resolve_key h1 (.str (toStr "transparent")) rfl)]
  simp only [ok_bind]
  rw [asStr_isStr (isStr_resolve_key h2 (.str pc) rfl)]
  simp only [ok_bind]
  rw [asStr_isStr (isStr_resolve_key h3 (.str (toStr "4px")) rfl)]
  simp only [ok_bind]
  rw [asOptStr_isOptStr (isOptStr_resolve_key h4)]
  simp only [ok_bind, pure_ok]
  rfl

/-- The buttons stage succeeds on a well-formed components object and
produces the modelled buttons. -/
theorem buildButtons_ok (compl : List (Str × Json)) (pc : Str)
    (h : wfComponents (.obj compl) = true) :
    buildButtons (.obj compl) pc = .ok (modelButtons compl pc) := by
  rw [wfComponents] at h
  simp only [Bool.and_eq_true] at h
  obtain ⟨hp, hs⟩ := h
  rw [buildButtons]
  simp only [getD_obj, ok_bind]
  rcases htp : (resolveD compl (toStr "buttonPrimary") .null).truthy
    with _ | _
  · rw [if_neg (by decide)]
    simp only [getD_obj, pure_ok, ok_bind]
    rcases hts : (resolveD compl (toStr "buttonSecondary") .null).truthy
      with _ | _
    · rw [if_neg (by decide)]
      try simp only [pure_ok, ok_bind]
      rw [modelButtons, if_neg (by rw [htp]; decide),
        if_neg (by rw [hts]; decide)]
    · have hs2 : wfBtnSShape (resolveD compl (toStr "buttonSecondary")
          .null) = true := by
        rw [wfBtnS, hts, if_pos rfl] at hs
        exact hs
      rcases hsv : resolveD compl (toStr "buttonSecondary") .null
        with _|_|_|_|_|sl
      all_goals rw [hsv] at hs2
      all_goals simp only [wfBtnSShape, Bool.false_eq_true] at hs2
      simp only [Bool.and_eq_true] at hs2
      obtain ⟨⟨⟨hs1, hs5⟩, hs3⟩, hs4⟩ := hs2
      rw [if_pos rfl]
      rw [buildButtonS_ok sl pc hs1 hs5 hs3 hs4]
      try simp only [pure_ok, ok_bind]
      rw [modelButtons, if_neg (by rw [htp]; decide), if_pos hts, hsv]
      rfl
  · have hp2 : wfBtnPShape (resolveD compl (toStr "buttonPrimary")
        .null) = true := by
      rw [wfBtnP, htp, if_pos rfl] at hp
      exact hp
    rcases hpv : resolveD compl (toStr "buttonPrimary") .null
      with _|_|_|_|_|pl
    all_goals rw [hpv] at hp2
    all_goals simp only [wfBtnPShape, Bool.false_eq_true] at hp2
    simp only [Bool.and_eq_true] at hp2
    obtain ⟨⟨hp1, hp5⟩, hp3⟩ := hp2
    rw [if_pos rfl]
    rw [buildButtonP_ok pl pc hp1 hp5 hp3]
    simp only [getD_obj, pure_ok, ok_bind]
    rcases hts : (resolveD compl (toStr "buttonSecondary") .null).truthy
      with _ | _
    · rw [if_neg (by decide)]
      try simp only [pure_ok, ok_bind]
      rw [modelButtons, if_pos htp, if_neg (by rw [hts]; decide), hpv]
      rfl
    · have hs2 : wfBtnSShape (resolveD compl (toStr "buttonSecondary")
          .null) = true := by
        rw [wfBtnS, hts, if_pos rfl] at hs
        exact hs
      rcases hsv : resolveD compl (toStr "buttonSecondary") .null
        with _|_|_|_|_|sl
      all_goals rw [hsv] at hs2
      all_goals simp only [wfBtnSShape, Bool.false_eq_true] at hs2
      simp only [Bool.and_eq_true] at hs2
      obtain ⟨⟨⟨hs1, hs5⟩, hs3⟩, hs4⟩ := hs2
      rw [if_pos rfl]
      rw [buildButtonS_ok sl pc hs1 hs5 hs3 hs4]
      try simp only [pure_ok, ok_bind]
      rw [modelButtons, if_pos htp, if_pos hts, hpv, hsv]
      rfl

/-- The screenshot stage succeeds when the `data` sub-object resolves to a
dict, and collects the raw screenshot value exactly when requested and
present. -/
theorem getScreenshots_ok (inc : Bool) (dl il : List (Str × Json))
    (hd : resolveD dl (toStr "data") (.obj []) = .obj il) :
    getScreenshots inc (.obj dl) =
      .ok (if inc then shotVals (lookupA il (toStr "screenshot"))
           else []) := by
  cases inc with
  | false => rfl
  | true =>
    rw [getScreenshots]
    simp only [getD_obj, ok_bind, if_true]
    rw [hd, Json.hasKey]
    simp only [ok_bind]
    rw [any_eq_lookup]
    rcases hlk : lookupA il (toStr "screenshot") with _ | v
    · simp [shotVals, pure_ok]
    · simp only [hlk, Option.isSome_some, if_true]
      rcases hdl : lookupA dl (toStr "data") with _ | w
      · rw [resolveD, hdl] at hd
        simp only [Option.getD_none] at hd
        injection hd with hnil
        rw [← hnil] at hlk
        simp [lookupA] at hlk
      · rw [resolveD, hdl] at hd
        simp only [Option.getD_some] at hd
        rw [show Json.index (.obj dl) (toStr "data") =
          indexOpt (lookupA dl (toStr "data")) from rfl, hdl, indexOpt]
        simp only [ok_bind]
        rw [hd]
        rw [show Json.index (.obj il) (toStr "screenshot") =
          indexOpt (lookupA il (toStr "screenshot")) from rfl, hlk, indexOpt]
        simp only [ok_bind, pure_ok]
        simp [shotVals]

/-- On any well-formed scrape response body, `extract_brand` raises nothing
and returns exactly the modelled `BrandData`. -/
theorem extractBrand_eq_model (url : Str) (inc : Bool) (data : Json)
    (h : wfScrape data = true) :
    extractBrand url inc data = .ok (extractModel url inc data) := by
  rcases data with _|b|n|s|items|dl
  all_goals simp only [wfScrape, Bool.false_eq_true] at h
  rcases hd : resolveD dl (toStr "data") (.obj []) with _|_|_|_|_|il
  all_goals rw [hd] at h
  all_goals simp only [wfDataShape, Bool.false_eq_true] at h
  rw [wfData] at h
  rcases hbr : resolveD il (toStr "branding") (.obj []) with _|_|_|_|_|bl
  all_goals rw [hbr] at h
  all_goals simp only [wfBrandingShape, Bool.and_false,
    Bool.false_eq_true] at h
  simp only [Bool.and_eq_true] at h
  obtain ⟨hshot, hbrand⟩ := h
  rw [wfBranding] at hbrand
  simp only [Bool.and_eq_true] at hbrand
  obtain ⟨⟨⟨⟨hc, htp⟩, hsp⟩, hcm⟩, him⟩ := hbrand
  have hbo : brandingObj (.obj dl) = Json.obj bl := by
    rw [brandingObj, dataObj]
    simp only [objFieldsD]
    rw [hd]
    simp only [objFieldsD]
    exact hbr
  have hbf : ∀ k : Str, brandingField (.obj dl) k =
      resolveD bl k (.obj []) := by
    intro k
    rw [brandingField, hbo]
    rfl
  rw [extractModel]
  simp only [hbf, hbo]
  rw [show dataObj (.obj dl) = resolveD dl (toStr "data") (.obj [])
    from rfl, hd]
  simp only [objFieldsD]
  rw [extractBrand]
  simp only [getD_obj, ok_bind]
  rw [hd]
  simp only [getD_obj, ok_bind]
  rw [hbr]
  rw [getScreenshots_ok inc dl il hd]
  simp only [getD_obj, ok_bind]
  rcases hcv : resolveD bl (toStr "colors") (.obj []) with _|_|_|_|_|cl
  all_goals rw [hcv] at hc
  all_goals simp only [wfColors, Bool.false_eq_true] at hc
  rw [buildColors_ok cl (by rw [wfColors]; exact hc)]
  simp only [ok_bind, objFieldsD]
  rcases htv : resolveD bl (toStr "typography") (.obj []) with _|_|_|_|_|tl
  all_goals rw [htv] at htp
  all_goals simp only [wfTypo, Bool.false_eq_true] at htp
  rw [buildTypography_ok tl (by rw [wfTypo]; exact htp)]
  simp only [ok_bind, objFieldsD]
  rcases hspv : resolveD bl (toStr "spacing") (.obj []) with _|_|_|_|_|sl
  all_goals rw [hspv] at hsp
  all_goals simp only [wfSpacing, Bool.false_eq_true] at hsp
  rw [buildSpacing_ok sl (by rw [wfSpacing]; exact hsp)]
  simp only [ok_bind, objFieldsD]
  rcases hcmv : resolveD bl (toStr "components") (.obj [])
    with _|_|_|_|_|compl
  all_goals rw [hcmv] at hcm
  all_goals simp only [wfComponents, Bool.false_eq_true] at hcm
  rw [buildButtons_ok compl (modelColors cl).primary
    (by rw [wfComponents]; exact hcm)]
  simp only [ok_bind, objFieldsD]
  rcases himv : resolveD bl (toStr "images") (.obj []) with _|_|_|_|_|iml
  all_goals rw [himv] at him
  all_goals simp only [wfImages, Bool.false_eq_true] at him
  simp only [getD_obj, ok_bind, objFieldsD]
  simp only [Bool.and_eq_true] at him
  obtain ⟨hlg, hfv⟩ := him
  rcases hlt : (resolveD iml (toStr "logo") .null).truthy with _|_
  · rw [hlt, if_neg (show ¬(false = true) by decide)] at hlg
    rw [if_neg (show ¬(false = true) by decide)]
    rw [asOptStr_isOptStr hlg]
    simp only [ok_bind]
    rw [asOptStr_isOptStr hfv]
    simp only [ok_bind]
    cases inc with
    | false =>
      rw [if_neg (show ¬(false = true) by decide)]
      rfl
    | true =>
      rw [if_pos rfl, if_pos rfl]
      rcases hlk2 : lookupA il (toStr "screenshot") with _ | v
      · rw [shotVals, shotStrs]
        rfl
      · rw [hlk2] at hshot
        simp only [wfShotShape] at hshot
        rw [shotVals, shotStrs]
        rw [asStrList_map (by
          intro j hj
          simp only [List.mem_singleton] at hj
          rw [hj]
          exact hshot)]
        simp only [ok_bind]
        rfl
  · rw [hlt, if_pos rfl] at hlg
    rw [if_pos rfl]
    rw [asOptStr_isOptStr hlg]
    simp only [ok_bind]
    rw [asOptStr_isOptStr hfv]
    simp only [ok_bind]
    cases inc with
    | false =>
      rw [if_neg (show ¬(false = true) by decide)]
      rfl
    | true =>
      rw [if_pos rfl, if_pos rfl]
      rcases hlk2 : lookupA il (toStr "screenshot") with _ | v
      · rw [shotVals, shotStrs]
        rfl
      · rw [hlk2] at hshot
        simp only [wfShotShape] at hshot
        rw [shotVals, shotStrs]
        rw [asStrList_map (by
          intro j hj
          simp only [List.mem_singleton] at hj
          rw [hj]
          exact hshot)]
        simp only [ok_bind]
        rfl

/-- A resolved value is a string or `null` when all values are and the
default is. -/
theorem isOptStr_resolve_allOpt {cl : List (Str × Json)}
    (hall : ∀ p ∈ cl, isOptStrJ p.2 = true) (k : Str) (d : Json)
    (hd : isOptStrJ d = true) : isOptStrJ (resolveD cl k d) = true := by
  rw [resolveD]
  rcases hl : lookupA cl k with _ | v
  · exact hd
  · exact hall _ (lookupA_mem hl)

/-- A truthy optional string is a string. -/
theorem isStr_of_optStr_truthy {j : Json} (ho : isOptStrJ j = true)
    (ht : j.truthy = true) : isStrJ j = true := by
  cases j <;> simp [isOptStrJ, Json.truthy, isStrJ] at ho ht ⊢

/-- A resolved value is a string when the values are optional strings, the
key is not mapped to `null`, and the default is a string. -/
theorem isStr_resolve_notNull {cl : List (Str × Json)}
    (hall : ∀ p ∈ cl, isOptStrJ p.2 = true) {k : Str}
    (hnn : notNullOpt (lookupA cl k) = true) (d : Json)
    (hd : isStrJ d = true) : isStrJ (resolveD cl k d) = true := by
  rw [resolveD]
  rcases hl : lookupA cl k with _ | v
  · exact hd
  · have ho := hall _ (lookupA_mem hl)
    rw [hl] at hnn
    cases v <;> simp [isOptStrJ] at ho <;>
      simp [notNullOpt, isStrJ] at hnn ⊢

/-- The vision colors stage succeeds on a well-formed colors object and
produces the modelled colors. -/
theorem vBuildColors_ok (cl : List (Str × Json))
    (h : wfVColors (.obj cl) = true) :
    vBuildColors (.obj cl) = .ok (vModelColors cl) := by
  rw [wfVColors] at h
  simp only [Bool.and_eq_true] at h
  obtain ⟨hall0, hnn⟩ := h
  have hall : ∀ p ∈ cl, isOptStrJ p.2 = true := fun p hp =>
    List.all_eq_true.mp hall0 p hp
  rw [vBuildColors]
  simp only [getD_obj, ok_bind]
  rw [asStr_isStr (isStr_resolve_notNull hall hnn
    (.str (toStr "#000000")) rfl)]
  simp only [ok_bind]
  rw [asOptStr_isOptStr (isOptStr_resolve_allOpt hall (toStr "secondary")
    .null rfl)]
  simp only [ok_bind]
  rw [asOptStr_isOptStr (isOptStr_resolve_allOpt hall (toStr "accent")
    .null rfl)]
  simp only [ok_bind]
  rw [asOptStr_isOptStr (isOptStr_resolve_allOpt hall (toStr "background")
    (.str (toStr "#ffffff")) rfl)]
  simp only [ok_bind]
  rw [asOptStr_isOptStr (isOptStr_resolve_allOpt hall (toStr "text")
    (.str (toStr "#000000")) rfl)]
  simp only [ok_bind]
  rw [asStrList_map (by
    intro j hj
    rw [List.mem_filter] at hj
    obtain ⟨hmem, htr⟩ := hj
    have hopt : isOptStrJ j = true := by
      simp only [List.mem_cons, List.not_mem_nil, or_false] at hmem
      rcases hmem with h5|h5|h5|h5|h5 <;>
        (rw [h5]; exact isOptStr_resolve_allOpt hall _ .null rfl)
    exact isStr_of_optStr_truthy hopt htr)]
  simp only [ok_bind, pure_ok]
  rfl

/-- The vision typography stage succeeds on a well-formed typography object
and produces the modelled typography. -/
theorem vBuildTypo_ok (tl : List (Str × Json))
    (h : wfVTypo (.obj tl) = true) :
    vBuildTypo (.obj tl) = .ok (vModelTypo tl) := by
  rw [wfVTypo] at h
  simp only [Bool.and_eq_true] at h
  obtain ⟨⟨hh, hb⟩, hw⟩ := h
  rw [vBuildTypo]
  simp only [getD_obj, ok_bind]
  have hwl : asIntList (resolveD tl (toStr "weights")
      (.arr [.num 400, .num 600, .num 700])) =
      .ok (intListD (resolveD tl (toStr "weights")
        (.arr [.num 400, .num 600, .num 700]))) := by
    rw [resolveD]
    rcases hlw : lookupA tl (toStr "weights") with _ | v
    · rfl
    · rw [hlw] at hw
      simp only [Option.getD_some]
      cases v
      case arr ws =>
        simp only [wfWeightsShape] at hw
        rw [asIntList, asIntList_map (fun j hj =>
          List.all_eq_true.mp hw j hj), intListD]
      all_goals simp [wfWeightsShape] at hw
  rw [asStr_isStr (isStr_resolve_key hh (.str (toStr "sans-serif")) rfl)]
  simp only [ok_bind]
  rw [asStr_isStr (isStr_resolve_key hb (.str (toStr "sans-serif")) rfl)]
  simp only [ok_bind]
  rw [hwl]
  simp only [ok_bind, pure_ok]
  rfl

/-- One vision button construction succeeds on a well-shaped sub-object and
produces the modelled button. -/
theorem vBuildButton_ok (btnl : List (Str × Json)) (bgD textD : Str)
    (h : wfVBtnShape (.obj btnl) = true) :
    vBuildButton (.obj btnl) bgD textD =
      .ok (vModelButton btnl bgD textD) := by
  rw [wfVBtnShape] at h
  simp only [Bool.and_eq_true] at h
  obtain ⟨⟨⟨h1, h2⟩, h3⟩, h4⟩ := h
  rw [vBuildButton]
  simp only [getD_obj, ok_bind]
  rcases hhb : (resolveD btnl (toStr "has_border") .null).truthy with _|_
  · rw [if_neg (show ¬(false = true) by decide)]
    simp only [pure_ok, ok_bind]
    rw [asStr_isStr (isStr_resolve_key h1 (.str bgD) rfl)]
    simp only [ok_bind]
    rw [asStr_isStr (isStr_resolve_key h2 (.str textD) rfl)]
    simp only [ok_bind]
    rw [asStr_isStr (isStr_resolve_key h3 (.str (toStr "4px")) rfl)]
    simp only [ok_bind]
    rw [show asOptStr .null = .ok none from rfl]
    simp only [ok_bind, pure_ok]
    rw [vModelButton, if_neg (by rw [hhb]; decide)]
  · rw [hhb, if_pos rfl] at h4
    rw [if_pos rfl]
    try simp only [getD_obj, ok_bind]
    rw [asStr_isStr (isStr_resolve_key h1 (.str bgD) rfl)]
    simp only [ok_bind]
    rw [asStr_isStr (isStr_resolve_key h2 (.str textD) rfl)]
    simp only [ok_bind]
    rw [asStr_isStr (isStr_resolve_key h3 (.str (toStr "4px")) rfl)]
    simp only [ok_bind]
    rw [asOptStr_isOptStr (isOptStr_resolve_key h4)]
    simp only [ok_bind, pure_ok]
    rw [vModelButton, if_pos hhb]

/-- The vision buttons stage succeeds on a well-formed buttons object and
produces the modelled buttons. -/
theorem vBuildButtons_ok (bl : List (Str × Json)) (pc : Str)
    (h : wfVButtons (.obj bl) = true) :
    vBuildButtons (.obj bl) pc = .ok (vModelButtons bl pc) := by
  rw [wfVButtons] at h
  simp only [Bool.and_eq_true] at h
  obtain ⟨hp, hs⟩ := h
  rw [vBuildButtons]
  simp only [getD_obj, ok_bind]
  rcases htp : (resolveD bl (toStr "primary") .null).truthy with _|_
  · rw [if_neg (show ¬(false = true) by decide)]
    simp only [getD_obj, pure_ok, ok_bind]
    rcases hts : (resolveD bl (toStr "secondary") .null).truthy with _|_
    · rw [if_neg (show ¬(false = true) by decide)]
      try simp only [pure_ok, ok_bind]
      rw [vModelButtons, if_neg (by rw [htp]; decide),
        if_neg (by rw [hts]; decide)]
    · have hs2 : wfVBtnShape (resolveD bl (toStr "secondary") .null) =
          true := by
        rw [wfVBtn, hts, if_pos rfl] at hs
        exact hs
      rcases hsv : resolveD bl (toStr "secondary") .null with _|_|_|_|_|sl
      all_goals rw [hsv] at hs2
      all_goals simp only [wfVBtnShape, Bool.false_eq_true] at hs2
      rw [if_pos rfl]
      rw [vBuildButton_ok sl (toStr "transparent") pc
        (by rw [wfVBtnShape]; exact hs2)]
      simp only [pure_ok, ok_bind]
      rw [vModelButtons, if_neg (by rw [htp]; decide), if_pos hts, hsv]
      rfl
  · have hp2 : wfVBtnShape (resolveD bl (toStr "primary") .null) =
        true := by
      rw [wfVBtn, htp, if_pos rfl] at hp
      exact hp
    rcases hpv : resolveD bl (toStr "primary") .null with _|_|_|_|_|pl
    all_goals rw [hpv] at hp2
    all_goals simp only [wfVBtnShape, Bool.false_eq_true] at hp2
    rw [if_pos rfl]
    rw [vBuildButton_ok pl pc (toStr "#ffffff")
      (by rw [wfVBtnShape]; exact hp2)]
    simp only [getD_obj, pure_ok, ok_bind]
    rcases hts : (resolveD bl (toStr "secondary") .null).truthy with _|_
    · rw [if_neg (show ¬(false = true) by decide)]
      try simp only [pure_ok, ok_bind]
      rw [vModelButtons, if_pos htp, if_neg (by rw [hts]; decide), hpv]
      rfl
    · have hs2 : wfVBtnShape (resolveD bl (toStr "secondary") .null) =
          true := by
        rw [wfVBtn, hts, if_pos rfl] at hs
        exact hs
      rcases hsv : resolveD bl (toStr "secondary") .null with _|_|_|_|_|sl
      all_goals rw [hsv] at hs2
      all_goals simp only [wfVBtnShape, Bool.false_eq_true] at hs2
      rw [if_pos rfl]
      rw [vBuildButton_ok sl (toStr "transparent") pc
        (by rw [wfVBtnShape]; exact hs2)]
      simp only [pure_ok, ok_bind]
      rw [vModelButtons, if_pos htp, if_pos hts, hpv, hsv]
      rfl

/-- On any well-formed parsed payload, the vision builder raises nothing and
returns exactly the modelled `BrandData`. -/
theorem vBuild_eq_model (j : Json) (sourceUrl screenshotUrl : Str)
    (h : wfVision j = true) :
    vBuild j sourceUrl screenshotUrl =
      .ok (vModel j sourceUrl screenshotUrl) := by
  rcases j with _|b|n|s|items|jl
  all_goals simp only [wfVision, Bool.false_eq_true] at h
  simp only [Bool.and_eq_true] at h
  obtain ⟨⟨hc, ht⟩, hb⟩ := h
  rw [vModel]
  simp only [objFieldsD]
  rw [vBuild]
  simp only [getD_obj, ok_bind]
  rcases hcv : resolveD jl (toStr "colors") (.obj []) with _|_|_|_|_|cl
  all_goals rw [hcv] at hc
  all_goals simp only [wfVColors, Bool.false_eq_true] at hc
  rw [vBuildColors_ok cl (by rw [wfVColors]; exact hc)]
  simp only [ok_bind, objFieldsD]
  rcases htv : resolveD jl (toStr "typography") (.obj []) with _|_|_|_|_|tl
  all_goals rw [htv] at ht
  all_goals simp only [wfVTypo, Bool.false_eq_true] at ht
  rw [vBuildTypo_ok tl (by rw [wfVTypo]; exact ht)]
  simp only [ok_bind, objFieldsD]
  rcases hbv : resolveD jl (toStr "buttons") (.obj []) with _|_|_|_|_|bbl
  all_goals rw [hbv] at hb
  all_goals simp only [wfVButtons, Bool.false_eq_true] at hb
  rw [vBuildButtons_ok bbl (vModelColors cl).primary
    (by rw [wfVButtons]; exact hb)]
  simp only [ok_bind, pure_ok, objFieldsD]

/-- Reading a string with a string default agrees with the spec-side
key-lookup formulation, under the key's type condition. -/
theorem strD_resolve_eq_stringAt {l : List (Str × Json)} {k : Str}
    (hk : keyStrOrAbsent l k = true) (dj : Json)
    (hdj : isStrJ dj = true) :
    strD (resolveD l k dj) = (stringAt l k).getD (strD dj) := by
  rw [resolveD, stringAt]
  rcases hl : lookupA l k with _ | v
  · rfl
  · rw [keyStrOrAbsent, hl] at hk
    cases v <;> simp [isStrJ] at hk <;> rfl

/-- Reading an optional string with `null` default agrees with the spec-side
key-lookup formulation, unconditionally. -/
theorem optStrD_resolve_null_eq (l : List (Str × Json)) (k : Str) :
    optStrD (resolveD l k .null) = optStringAtD l k none := by
  rw [resolveD, optStringAtD]
  rcases hl : lookupA l k with _ | v <;> rfl

/-- Reading an optional string with a string default agrees with the
spec-side key-lookup formulation, unconditionally. -/
theorem optStrD_resolve_str_eq (l : List (Str × Json)) (k : Str) (d : Str) :
    optStrD (resolveD l k (.str d)) = optStringAtD l k (some d) := by
  rw [resolveD, optStringAtD]
  rcases hl : lookupA l k with _ | v <;> rfl

/-- The spec-side reading of one palette candidate: a non-empty string
literally present at the key, and nothing otherwise. -/
def keptColor : Option Json → Option Str
  | some (.str s) => if s.isEmpty then none else some s
  | _ => none

/-- The truthiness-filtered palette over looked-up values agrees with the
spec-side `filterMap` formulation, when present values are strings or
`null`. -/
theorem palette_filter_eq (os : List (Option Json))
    (h : ∀ o ∈ os, ∀ v, o = some v → isOptStrJ v = true) :
    ((os.map (fun o => o.getD Json.null)).filter Json.truthy).map strD =
      os.filterMap keptColor := by
  induction os with
  | nil => rfl
  | cons o rest ih =>
    have hrest := fun o ho v hv => h o (List.mem_cons_of_mem _ ho) v hv
    rcases o with _ | v
    · simp only [List.map_cons, Option.getD_none, List.filter_cons,
        List.filterMap_cons, keptColor]
      rw [show (Json.truthy .null) = false from rfl]
      simp only [Bool.false_eq_true, if_false]
      exact ih hrest
    · have hv : isOptStrJ v = true := h _ (List.mem_cons_self _ _) v rfl
      rcases v with _|b|n|s|items|fl
      case null =>
        simp only [List.map_cons, Option.getD_some, List.filter_cons,
          List.filterMap_cons, keptColor]
        rw [show (Json.truthy .null) = false from rfl]
        simp only [Bool.false_eq_true, if_false]
        exact ih hrest
      case str =>
        simp only [List.map_cons, Option.getD_some, List.filter_cons,
          List.filterMap_cons, keptColor]
        rw [show (Json.str s).truthy = !s.isEmpty from rfl]
        rcases hs : s.isEmpty with _|_
        · simp only [hs, Bool.not_false, if_true, if_false, List.map_cons]
          rw [ih hrest]
          rfl
        · simp only [hs, Bool.not_true, Bool.false_eq_true, if_false,
            if_true]
          exact ih hrest
      all_goals simp [isOptStrJ] at hv
  termination_by os.length

/-- A well-formed scrape body has well-formed branding fields. -/
theorem wfScrape_fields (data : Json) (h : wfScrape data = true) :
    wfColors (brandingField data (toStr "colors")) = true ∧
    wfTypo (brandingField data (toStr "typography")) = true ∧
    wfSpacing (brandingField data (toStr "spacing")) = true ∧
    wfComponents (brandingField data (toStr "components")) = true := by
  rcases data with _|b|n|s|items|dl
  all_goals simp only [wfScrape, Bool.false_eq_true] at h
  rcases hd : resolveD dl (toStr "data") (.obj []) with _|_|_|_|_|il
  all_goals rw [hd] at h
  all_goals simp only [wfDataShape, Bool.false_eq_true] at h
  rw [wfData] at h
  rcases hbr : resolveD il (toStr "branding") (.obj []) with _|_|_|_|_|bl
  all_goals rw [hbr] at h
  all_goals simp only [wfBrandingShape, Bool.and_false,
    Bool.false_eq_true] at h
  simp only [Bool.and_eq_true] at h
  obtain ⟨hshot, hbrand⟩ := h
  rw [wfBranding] at hbrand
  simp only [Bool.and_eq_true] at hbrand
  obtain ⟨⟨⟨⟨hc, ht2⟩, hsp⟩, hcm⟩, him⟩ := hbrand
  have hbo : brandingObj (.obj dl) = Json.obj bl := by
    rw [brandingObj, dataObj]
    simp only [objFieldsD]
    rw [hd]
    simp only [objFieldsD]
    exact hbr
  have hbf : ∀ k : Str, brandingField (.obj dl) k =
      resolveD bl k (.obj []) := by
    intro k
    rw [brandingField, hbo]
    rfl
  rw [hbf, hbf, hbf, hbf]
  exact ⟨hc, ht2, hsp, hcm⟩

/-- A well-formed vision payload has well-formed colors. -/
theorem wfVision_colors (j : Json) (h : wfVision j = true) :
    wfVColors (resolveD (objFieldsD j) (toStr "colors") (.obj [])) =
      true := by
  rcases j with _|b|n|s|items|jl
  all_goals simp only [wfVision, Bool.false_eq_true] at h
  simp only [Bool.and_eq_true] at h
  simp only [objFieldsD]
  exact h.1.1

/-- Colors component of the extraction model. -/
theorem extractModel_colors (url : Str) (inc : Bool) (data : Json) :
    (extractModel url inc data).colors =
      modelColors (objFieldsD (brandingField data (toStr "colors"))) := rfl

/-- Typography component of the extraction model. -/
theorem extractModel_typography (url : Str) (inc : Bool) (data : Json) :
    (extractModel url inc data).typography =
      modelTypography (objFieldsD (brandingField data
        (toStr "typography"))) := rfl

/-- Buttons component of the extraction model. -/
theorem extractModel_buttons (url : Str) (inc : Bool) (data : Json) :
    (extractModel url inc data).buttons =
      modelButtons (objFieldsD (brandingField data (toStr "components")))
        (modelColors (objFieldsD (brandingField data
          (toStr "colors")))).primary := rfl

/-- Primary slot of the modelled buttons. -/
theorem modelButtons_primary (compl : List (Str × Json)) (pc : Str) :
    (modelButtons compl pc).primary =
      (if (resolveD compl (toStr "buttonPrimary") .null).truthy then
        some (modelButtonP (objFieldsD (resolveD compl
          (toStr "buttonPrimary") .null)) pc)
      else none) := rfl

/-- Secondary slot of the modelled buttons. -/
theorem modelButtons_secondary (compl : List (Str × Json)) (pc : Str) :
    (modelButtons compl pc).secondary =
      (if (resolveD compl (toStr "buttonSecondary") .null).truthy then
        some (modelButtonS (objFieldsD (resolveD compl
          (toStr "buttonSecondary") .null)) pc)
      else none) := rfl

/-- Colors component of the vision model. -/
theorem vModel_colors (j : Json) (u s : Str) :
    (vModel j u s).colors =
      vModelColors (objFieldsD (resolveD (objFieldsD j) (toStr "colors")
        (.obj []))) := rfl

/-- Palette component of the modelled vision colors. -/
theorem vModelColors_palette (cl : List (Str × Json)) :
    (vModelColors cl).palette =
      (([resolveD cl (toStr "primary") .null,
         resolveD cl (toStr "secondary") .null,
         resolveD cl (toStr "accent") .null,
         resolveD cl (toStr "background") .null,
         resolveD cl (toStr "text") .null]).filter Json.truthy).map
        strD := rfl

/-- The `none`-default optional-string lookup is the plain string lookup. -/
theorem optStringAtD_none_eq_stringAt (l : List (Str × Json)) (k : Str) :
    optStringAtD l k none = stringAt l k := by
  rw [optStringAtD, stringAt]
  rcases hl : lookupA l k with _ | v
  · rfl
  · cases v <;> rfl

/-- Reading a string with a string default under a non-`null`, optional-
string discipline agrees with the spec-side key-lookup formulation. -/
theorem strD_resolve_primary_eq {cl : List (Str × Json)} {k : Str}
    (hall : ∀ p ∈ cl, isOptStrJ p.2 = true)
    (hnn : notNullOpt (lookupA cl k) = true) (d : Str) :
    strD (resolveD cl k (.str d)) = (stringAt cl k).getD d := by
  rw [resolveD, stringAt]
  rcases hl : lookupA cl k with _ | v
  · rfl
  · have ho := hall _ (lookupA_mem hl)
    rw [hl] at hnn
    cases v <;> first
      | rfl
      | simp [notNullOpt, isOptStrJ] at hnn ho

/-- A member of the vision palette is a literally present, truthy string. -/
theorem palette_mem_one {cl : List (Str × Json)} {k : Str} {v : Json}
    {c : Str} (hall : ∀ p ∈ cl, isOptStrJ p.2 = true)
    (hv : v = resolveD cl k .null) (htr : v.truthy = true)
    (hstr : strD v = c) :
    lookupA cl k = some (.str c) ∧ c ≠ [] := by
  rw [resolveD] at hv
  rcases hos : lookupA cl k with _ | u
  · rw [hos] at hv
    simp only [Option.getD_none] at hv
    rw [hv] at htr
    simp [Json.truthy] at htr
  · rw [hos] at hv
    simp only [Option.getD_some] at hv
    have ho := hall _ (lookupA_mem hos)
    rw [hv] at htr hstr
    rcases u with _|b|n|s|items|fl
    case null => simp [Json.truthy] at htr
    case str =>
      rw [← hstr]
      refine ⟨rfl, ?_⟩
      intro hnil
      rw [show strD (.str s) = s from rfl] at hnil
      rw [show Json.truthy (.str s) = !s.isEmpty from rfl, hnil] at htr
      simp at htr
    all_goals simp [isOptStrJ] at ho

/-- C3: on the end-to-end structured payload of spec section 8, extraction
returns `#111111` as the primary color, renames the vendor `textPrimary`
field to canonical `text` (`#222222`), and builds a primary button with
background `#111111`, border radius `8px` and the fixed padding
`12px 24px`. -/
theorem extract_brand_end_to_end_scenario :
    extractBrand (toStr "https://example.com") false scenarioPayload =
      .ok { url := toStr "https://example.com"
            colors := { primary := toStr "#111111", secondary := none,
                        accent := none, background := none,
                        text := some (toStr "#222222"),
                        palette := [toStr "#111111", toStr "#222222"] }
            typography := { headings := toStr "sans-serif",
                            body := toStr "sans-serif",
                            weights := [400, 600, 700],
                            base_size := some (toStr "16px") }
            spacing := { grid := toStr "8px", gap := none }
            buttons := { primary := some { bg := toStr "#111111",
                                           text := toStr "#ffffff",
                                           border_radius := toStr "8px",
                                           padding := toStr "12px 24px",
                                           border := none },
                         secondary := none }
            logo_url := none, favicon_url := none,
            screenshots := [] } := by
  rfl

/-- C8 counterexample: an explicitly passed empty-string credential is a
present constructor parameter, yet both constructors raise `ValueError`,
so presence alone does not guarantee construction succeeds. -/
theorem init_empty_string_param_raises :
    firecrawlInit (some []) (fun _ => none) = .error .valueError ∧
    visionInit (some []) (fun _ => none) = .error .valueError :=
  ⟨rfl, rfl⟩

/-- Case analysis of the shared credential-check shape of both
constructors. -/
theorem initHelper (a e : Option Str) :
    ((optTruthy a || optTruthy e) = true →
      (if optTruthy (pyOrOpt a e) then
          (Except.ok ((pyOrOpt a e).getD []) : Except PyError Str)
        else .error .valueError) = .ok ((pyOrOpt a e).getD [])) ∧
    ((optTruthy a || optTruthy e) = false →
      (if optTruthy (pyOrOpt a e) then
          (Except.ok ((pyOrOpt a e).getD []) : Except PyError Str)
        else .error .valueError) = .error .valueError) := by
  constructor <;> intro h <;> rcases ha : optTruthy a <;> simp_all [pyOrOpt]

/-- C8 (amended): for both extractors, construction raises the
configuration `ValueError` synchronously exactly when neither the
constructor parameter nor the corresponding environment variable carries a
non-empty credential; with a non-empty credential from either source,
construction succeeds and stores that credential. -/
theorem init_requires_nonempty_credential
    (apiKey : Option Str) (env : Str → Option Str) :
    ((optTruthy apiKey || optTruthy (env (toStr "FIRECRAWL_API_KEY"))) = true →
      firecrawlInit apiKey env =
        .ok ((pyOrOpt apiKey (env (toStr "FIRECRAWL_API_KEY"))).getD [])) ∧
    ((optTruthy apiKey || optTruthy (env (toStr "FIRECRAWL_API_KEY"))) = false →
      firecrawlInit apiKey env = .error .valueError) ∧
    ((optTruthy apiKey || optTruthy (env (toStr "ANTHROPIC_API_KEY"))) = true →
      visionInit apiKey env =
        .ok ((pyOrOpt apiKey (env (toStr "ANTHROPIC_API_KEY"))).getD [])) ∧
    ((optTruthy apiKey || optTruthy (env (toStr "ANTHROPIC_API_KEY"))) = false →
      visionInit apiKey env = .error .valueError) :=
  ⟨(initHelper apiKey (env (toStr "FIRECRAWL_API_KEY"))).1,
   (initHelper apiKey (env (toStr "FIRECRAWL_API_KEY"))).2,
   (initHelper apiKey (env (toStr "ANTHROPIC_API_KEY"))).1,
   (initHelper apiKey (env (toStr "ANTHROPIC_API_KEY"))).2⟩

/-- Witness for C8 at a concrete non-empty parameter (construction
succeeds) and at fully absent credentials (construction raises). -/
theorem init_requires_nonempty_credential_witness :
    firecrawlInit (some (toStr "test-key")) (fun _ => none) =
      .ok (toStr "test-key") ∧
    visionInit none (fun _ => none) = .error .valueError :=
  ⟨(init_requires_nonempty_credential (some (toStr "test-key"))
      (fun _ => none)).1 (by decide),
   (init_requires_nonempty_credential none (fun _ => none)).2.2.2 (by decide)⟩

/-- The line splitter never returns an empty list of lines. -/
theorem splitNl_ne_nil (s : Str) : splitNl s ≠ [] := by
  match s with
  | [] => simp [splitNl]
  | c :: rest =>
    rw [splitNl]
    split
    · simp
    · split
      · simp
      · simp

/-- Splitting distributes over a separator occurrence. -/
theorem splitNl_sep (xs ys : Str) :
    splitNl (xs ++ '\n' :: ys) = splitNl xs ++ splitNl ys := by
  induction xs with
  | nil => simp [splitNl]
  | cons c rest ih =>
    by_cases hc : c = '\n'
    · subst hc
      rw [List.cons_append, splitNl, if_pos rfl, ih, splitNl, if_pos rfl,
        List.cons_append]
    · rw [List.cons_append, splitNl, if_neg hc, ih]
      rw [splitNl, if_neg hc]
      rcases h : splitNl rest with _ | ⟨h1, t1⟩
      · exact absurd h (splitNl_ne_nil rest)
      · simp

/-- Prepending a character to the first line commutes with joining. -/
theorem joinNl_cons_head (c : Char) (h : Str) (t : List Str) :
    joinNl ((c :: h) :: t) = c :: joinNl (h :: t) := by
  cases t with
  | nil => rfl
  | cons x xs => rfl

/-- Joining the split lines reproduces the original text. -/
theorem joinNl_splitNl (s : Str) : joinNl (splitNl s) = s := by
  induction s with
  | nil => rfl
  | cons c rest ih =>
    rw [splitNl]
    by_cases hc : c = '\n'
    · subst hc
      rw [if_pos rfl]
      rcases h : splitNl rest with _ | ⟨h1, t1⟩
      · exact absurd h (splitNl_ne_nil rest)
      · rw [h] at ih
        show ('\n' :: joinNl (h1 :: t1) : Str) = '\n' :: rest
        rw [ih]
    · rw [if_neg hc]
      rcases h : splitNl rest with _ | ⟨h1, t1⟩
      · exact absurd h (splitNl_ne_nil rest)
      · rw [h] at ih
        rw [joinNl_cons_head, ih]

/-- Dropping a failing-head prefix leaves a cons list unchanged. -/
theorem dropWhile_cons_false {p : Char → Bool} {a : Char} (l : Str)
    (h : p a = false) : List.dropWhile p (a :: l) = a :: l := by
  simp [List.dropWhile_cons, h]

/-- `dropWhile` over an append. -/
theorem dropWhileApp (p : Char → Bool) (xs ys : Str) :
    List.dropWhile p (xs ++ ys) =
      if (List.dropWhile p xs).isEmpty then List.dropWhile p ys
      else List.dropWhile p xs ++ ys := by
  induction xs with
  | nil => simp
  | cons x rest ih =>
    by_cases hx : p x
    · simp only [List.cons_append, List.dropWhile_cons, hx, if_true, ih]
    · simp [List.dropWhile_cons, hx]

/-- `dropWhile` is idempotent. -/
theorem dropWhile_idem (p : Char → Bool) (l : Str) :
    List.dropWhile p (List.dropWhile p l) = List.dropWhile p l := by
  induction l with
  | nil => rfl
  | cons a rest ih =>
    by_cases ha : p a
    · simp only [List.dropWhile_cons, ha, if_true, ih]
    · simp [List.dropWhile_cons, ha]

/-- The head surviving `dropWhile` fails the predicate. -/
theorem head?_dropWhile {p : Char → Bool} {l : Str} {c : Char}
    (h : (List.dropWhile p l).head? = some c) : p c = false := by
  induction l with
  | nil => simp at h
  | cons a rest ih =>
    by_cases ha : p a
    · rw [List.dropWhile_cons, if_pos ha] at h
      exact ih h
    · rw [List.dropWhile_cons, if_neg ha] at h
      simp at h
      subst h
      simpa using ha

/-- A list whose head fails the predicate is unchanged by `dropWhile`. -/
theorem dropWhile_head_false {p : Char → Bool} {l : Str}
    (h : ∀ c, l.head? = some c → p c = false) : List.dropWhile p l = l := by
  cases l with
  | nil => rfl
  | cons a rest => exact dropWhile_cons_false rest (h a rfl)

/-- Right trim: reverse, drop leading, reverse. -/
def trimRw (p : Char → Bool) (l : Str) : Str :=
  (List.dropWhile p l.reverse).reverse

/-- Right trimming keeps the head of the list (or empties it). -/
theorem trimRw_head (p : Char → Bool) (l : Str) :
    trimRw p l = [] ∨ (trimRw p l).head? = l.head? := by
  cases l with
  | nil => left; rfl
  | cons a rest =>
    rw [trimRw, List.reverse_cons, dropWhileApp]
    by_cases he : (List.dropWhile p rest.reverse).isEmpty
    · rw [if_pos he]
      by_cases hp : p a
      · left; simp [List.dropWhile_cons, hp]
      · right; simp [List.dropWhile_cons, hp]
    · rw [if_neg he]
      right
      rw [List.reverse_append]
      rcases h : (List.dropWhile p rest.reverse).reverse with _ | ⟨x, xs⟩
      · exfalso
        apply he
        simp only [List.isEmpty_iff]
        have := congrArg List.reverse h
        simpa using this
      · simp

/-- `pyStrip` written as a left trim followed by a right trim. -/
theorem pyStrip_eq (s : Str) :
    pyStrip s = trimRw isPySpace (List.dropWhile isPySpace s) := rfl

/-- Trimming whitespace from both ends is idempotent. -/
theorem pyStrip_idem (s : Str) : pyStrip (pyStrip s) = pyStrip s := by
  have hx : List.dropWhile isPySpace (pyStrip s) = pyStrip s := by
    apply dropWhile_head_false
    intro c hc
    rcases trimRw_head isPySpace (List.dropWhile isPySpace s) with h | h
    · rw [pyStrip_eq, h] at hc
      simp at hc
    · rw [pyStrip_eq, h] at hc
      exact head?_dropWhile hc
  have key : ∀ w : Str, trimRw isPySpace (trimRw isPySpace w) = trimRw isPySpace w := by
    intro w
    rw [trimRw, trimRw, List.reverse_reverse, dropWhile_idem]
  calc pyStrip (pyStrip s)
      = trimRw isPySpace (List.dropWhile isPySpace (pyStrip s)) := pyStrip_eq _
    _ = trimRw isPySpace (pyStrip s) := by rw [hx]
    _ = trimRw isPySpace (trimRw isPySpace (List.dropWhile isPySpace s)) := by
        rw [pyStrip_eq]
    _ = trimRw isPySpace (List.dropWhile isPySpace s) := key _
    _ = pyStrip s := (pyStrip_eq _).symm

/-- A list with non-space first and last characters is unchanged by
`pyStrip`. -/
theorem pyStrip_keep (a b : Char) (l : Str) (ha : isPySpace a = false)
    (hb : isPySpace b = false) :
    pyStrip (a :: (l ++ [b])) = a :: (l ++ [b]) := by
  rw [pyStrip, dropWhile_cons_false _ ha]
  rw [show (a :: (l ++ [b])).reverse = b :: (l.reverse ++ [a]) by simp]
  rw [dropWhile_cons_false _ hb]
  simp

/-- Trimmed fenced text is unchanged by `pyStrip`. -/
theorem pyStrip_fenced (t : Str) :
    pyStrip (toStr "```json\n" ++ t ++ toStr "\n```") =
      toStr "```json\n" ++ t ++ toStr "\n```" := by
  have hfshape : toStr "```json\n" ++ t ++ toStr "\n```" =
      btick :: ((toStr "``json\n" ++ (t ++ toStr "\n``")) ++ [btick]) := by
    rw [show toStr "```json\n" = btick :: toStr "``json\n" from rfl,
      show toStr "\n```" = toStr "\n``" ++ [btick] from rfl]
    simp [List.append_assoc]
  rw [hfshape]
  exact pyStrip_keep btick btick _ rfl rfl

/-- Splitting the fenced text isolates the opening fence line, the fenced
body's own lines, and the closing fence line. -/
theorem splitNl_fenced (t : Str) :
    splitNl (toStr "```json\n" ++ t ++ toStr "\n```") =
      toStr "```json" :: (splitNl t ++ [toStr "```"]) := by
  have e3 : toStr "```json\n" ++ t ++ toStr "\n```" =
      toStr "```json" ++ '\n' :: (t ++ '\n' :: toStr "```") := rfl
  rw [e3, splitNl_sep, splitNl_sep]
  rfl

/-- The closing-fence removal drops exactly the appended fence line. -/
theorem dropClosing_concat (ls : List Str) :
    dropClosing (ls ++ [toStr "```"]) = ls := by
  unfold dropClosing
  rw [List.getLast?_concat]
  show (if pyStrip (toStr "```") = toStr "```" then
    (ls ++ [toStr "```"]).dropLast else ls ++ [toStr "```"]) = ls
  rw [if_pos (by decide)]
  simp

/-- C4: for every body text `t` that does not itself open with a fence
marker once trimmed (true of any JSON text), parsing the reply fenced as a
markdown code block gives the same `BrandData` as parsing `t` directly. -/
theorem parse_response_fence_stripping_equiv
    (loads : Str → Option Json) (t sourceUrl screenshotUrl : Str)
    (h : startsWithStr (toStr "```") (pyStrip t) = false) :
    parseResponse loads (toStr "```json\n" ++ t ++ toStr "\n```")
        sourceUrl screenshotUrl =
      parseResponse loads t sourceUrl screenshotUrl := by
  have hstart : startsWithStr (toStr "```")
      (toStr "```json\n" ++ t ++ toStr "\n```") = true := rfl
  have hfen : stripFence (pyStrip (toStr "```json\n" ++ t ++ toStr "\n```")) =
      t := by
    rw [pyStrip_fenced, stripFence, if_pos hstart, splitNl_fenced]
    show joinNl (dropClosing (splitNl t ++ [toStr "```"])) = t
    rw [dropClosing_concat, joinNl_splitNl]
  have hdir : stripFence (pyStrip t) = pyStrip t := by
    rw [stripFence, if_neg (by simp [h])]
  rw [parseResponse, parseResponse, hfen, hdir, pyStrip_idem]

/-- Witness for C4 at the concrete body `42` and a `loads` oracle that
parses it. -/
theorem parse_response_fence_stripping_equiv_witness :
    parseResponse (fun s => if s = toStr "42" then some (.num 42) else none)
        (toStr "```json\n" ++ toStr "42" ++ toStr "\n```")
        (toStr "https://example.com") (toStr "https://shot.png") =
      parseResponse (fun s => if s = toStr "42" then some (.num 42) else none)
        (toStr "42") (toStr "https://example.com") (toStr "https://shot.png") :=
  parse_response_fence_stripping_equiv
    (fun s => if s = toStr "42" then some (.num 42) else none)
    (toStr "42") (toStr "https://example.com") (toStr "https://shot.png")
    (by decide)

/-- C2: on any response text whose candidate (after trimming and fence
stripping) is not parseable as JSON, `_parse_response` returns exactly the
default `BrandData`: primary color `#000000`, sans-serif typography with the
default weights, only the screenshot URL in `screenshots`, the source URL,
no buttons, default spacing, and no other populated field. -/
theorem analyze_nonjson_returns_exact_default
    (loads : Str → Option Json) (t sourceUrl screenshotUrl : Str)
    (h : loads (pyStrip (stripFence (pyStrip t))) = none) :
    parseResponse loads t sourceUrl screenshotUrl =
      .ok { url := sourceUrl
            colors := { primary := toStr "#000000", secondary := none,
                        accent := none, background := none, text := none,
                        palette := [] }
            typography := { headings := toStr "sans-serif",
                            body := toStr "sans-serif",
                            weights := [400, 600, 700], base_size := none }
            spacing := { grid := toStr "8px", gap := none }
            buttons := { primary := none, secondary := none }
            logo_url := none, favicon_url := none
            screenshots := [screenshotUrl] } := by
  rw [parseResponse, h]
  rfl

/-- Witness for C2 at the concrete non-JSON reply of the test suite. -/
theorem analyze_nonjson_returns_exact_default_witness :
    parseResponse (fun _ => none) (toStr "not valid json at all")
        (toStr "https://example.com") (toStr "https://screenshot.url/img.png") =
      .ok { url := toStr "https://example.com"
            colors := { primary := toStr "#000000", secondary := none,
                        accent := none, background := none, text := none,
                        palette := [] }
            typography := { headings := toStr "sans-serif",
                            body := toStr "sans-serif",
                            weights := [400, 600, 700], base_size := none }
            spacing := { grid := toStr "8px", gap := none }
            buttons := { primary := none, secondary := none }
            logo_url := none, favicon_url := none
            screenshots := [toStr "https://screenshot.url/img.png"] } :=
  analyze_nonjson_returns_exact_default (fun _ => none)
    (toStr "not valid json at all") (toStr "https://example.com")
    (toStr "https://screenshot.url/img.png") rfl

/-- A structured payload whose branding `colors` entry is the string
`"red"` rather than an object. -/
def badColorsPayload : Json :=
  .obj [(toStr "data", .obj [(toStr "branding", .obj [
    (toStr "colors", .str (toStr "red"))])])]

/-- C1 counterexample: on a successful transport response whose branding
`colors` sub-field has an unexpected type (the string `"red"`),
`extract_brand` raises `AttributeError` (Python calls `.get` on a `str`)
instead of degrading to defaults, so extraction is not total over payloads
with arbitrarily typed sub-fields. -/
theorem extract_brand_raises_on_nonobject_colors :
    extractBrand (toStr "https://example.com") false badColorsPayload =
      .error .attributeError := rfl

/-- C1 (amended): on every well-typed scrape response body — present
sub-objects have the container shapes and leaf types the extractor reads,
while any sub-field may be missing — `extract_brand` raises nothing and
returns a `BrandData`; and on the fully-missing payload every field of the
result carries its spec section 4.1 default. -/
theorem extract_brand_total_on_wf_payloads (url : Str) (inc : Bool)
    (data : Json) (h : wfScrape data = true) :
    (∃ bd, extractBrand url inc data = .ok bd) ∧
    extractBrand url inc (.obj []) = .ok
      { url := url
        colors := { primary := toStr "#000000", secondary := none,
                    accent := none, background := none, text := none,
                    palette := [] }
        typography := { headings := toStr "sans-serif",
                        body := toStr "sans-serif",
                        weights := [400, 600, 700],
                        base_size := some (toStr "16px") }
        spacing := { grid := toStr "8px", gap := none }
        buttons := { primary := none, secondary := none }
        logo_url := none, favicon_url := none, screenshots := [] } :=
  ⟨⟨extractModel url inc data, extractBrand_eq_model url inc data h⟩,
   by cases inc <;> rfl⟩

/-- Witness for C1 at the section-8 structured payload. -/
theorem extract_brand_total_on_wf_payloads_witness :
    (∃ bd, extractBrand (toStr "https://example.com") false
      scenarioPayload = .ok bd) ∧
    extractBrand (toStr "https://example.com") false (.obj []) = .ok
      { url := toStr "https://example.com"
        colors := { primary := toStr "#000000", secondary := none,
                    accent := none, background := none, text := none,
                    palette := [] }
        typography := { headings := toStr "sans-serif",
                        body := toStr "sans-serif",
                        weights := [400, 600, 700],
                        base_size := some (toStr "16px") }
        spacing := { grid := toStr "8px", gap := none }
        buttons := { primary := none, secondary := none }
        logo_url := none, favicon_url := none, screenshots := [] } :=
  extract_brand_total_on_wf_payloads (toStr "https://example.com") false
    scenarioPayload (by decide)

/-- A structured payload holding a present but empty `buttonPrimary`
component object. -/
def emptyButtonPayload : Json :=
  .obj [(toStr "data", .obj [(toStr "branding", .obj [
    (toStr "components", .obj [(toStr "buttonPrimary", .obj [])])])])]

/-- C5 counterexample: a `buttonPrimary` component that is present but an
empty object is falsy in Python, so no `ButtonStyle` is built and the
primary slot stays absent, contradicting the claim that a present component
object always yields a `ButtonStyle`. -/
theorem button_empty_component_gives_absent_slot :
    extractBrand (toStr "https://example.com") false emptyButtonPayload =
      .ok { url := toStr "https://example.com"
            colors := { primary := toStr "#000000", secondary := none,
                        accent := none, background := none, text := none,
                        palette := [] }
            typography := { headings := toStr "sans-serif",
                            body := toStr "sans-serif",
                            weights := [400, 600, 700],
                            base_size := some (toStr "16px") }
            spacing := { grid := toStr "8px", gap := none }
            buttons := { primary := none, secondary := none }
            logo_url := none, favicon_url := none,
            screenshots := [] } := rfl

/-- C5 (amended): for every well-typed structured branding payload, a
component object that is present and truthy (non-empty) yields the described
`ButtonStyle` — `bg` from vendor `background` defaulting to canonical
`colors.primary` for primary and `"transparent"` for secondary, `text` from
vendor `textColor` defaulting to `"#ffffff"` for primary and canonical
`colors.primary` for secondary, `border_radius` from vendor `borderRadius`
defaulting to `"4px"`, fixed `padding`, and `border` from vendor
`borderColor` for the secondary button only — while a falsy (absent, `null`
or empty) component leaves the slot absent. -/
theorem button_mapping_on_truthy_components (url : Str) (inc : Bool)
    (data : Json) (h : wfScrape data = true)
    (cl compl : List (Str × Json))
    (hcl : brandingField data (toStr "colors") = .obj cl)
    (hcompl : brandingField data (toStr "components") = .obj compl) :
    ∃ bd, extractBrand url inc data = .ok bd ∧
      ((resolveD compl (toStr "buttonPrimary") .null).truthy = false →
        bd.buttons.primary = none) ∧
      (∀ btnl : List (Str × Json),
        resolveD compl (toStr "buttonPrimary") .null = .obj btnl →
        btnl ≠ [] →
        bd.buttons.primary = some
          { bg := (stringAt btnl (toStr "background")).getD
              bd.colors.primary
            text := (stringAt btnl (toStr "textColor")).getD
              (toStr "#ffffff")
            border_radius := (stringAt btnl (toStr "borderRadius")).getD
              (toStr "4px")
            padding := toStr "12px 24px"
            border := none }) ∧
      ((resolveD compl (toStr "buttonSecondary") .null).truthy = false →
        bd.buttons.secondary = none) ∧
      (∀ btnl : List (Str × Json),
        resolveD compl (toStr "buttonSecondary") .null = .obj btnl →
        btnl ≠ [] →
        bd.buttons.secondary = some
          { bg := (stringAt btnl (toStr "background")).getD
              (toStr "transparent")
            text := (stringAt btnl (toStr "textColor")).getD
              bd.colors.primary
            border_radius := (stringAt btnl (toStr "borderRadius")).getD
              (toStr "4px")
            padding := toStr "12px 24px"
            border := stringAt btnl (toStr "borderColor") }) := by
  obtain ⟨-, -, -, hcm⟩ := wfScrape_fields data h
  rw [hcompl] at hcm
  rw [wfComponents] at hcm
  simp only [Bool.and_eq_true] at hcm
  obtain ⟨hbp, hbs⟩ := hcm
  refine ⟨extractModel url inc data, extractBrand_eq_model url inc data h,
    ?_, ?_, ?_, ?_⟩
  · intro hfalse
    rw [extractModel_buttons, hcompl]
    simp only [objFieldsD]
    rw [modelButtons_primary, hfalse,
      if_neg (show ¬(false = true) by decide)]
  · intro btnl hbtn hne
    have htr : (Json.obj btnl).truthy = true := by
      cases btnl with
      | nil => exact absurd rfl hne
      | cons q qs => rfl
    have hshape : wfBtnPShape (.obj btnl) = true := by
      rw [hbtn] at hbp
      rw [wfBtnP, htr, if_pos rfl] at hbp
      exact hbp
    rw [wfBtnPShape] at hshape
    simp only [Bool.and_eq_true] at hshape
    obtain ⟨⟨h1, h2⟩, h3⟩ := hshape
    rw [extractModel_buttons, extractModel_colors, hcompl, hcl]
    simp only [objFieldsD]
    rw [modelButtons_primary, hbtn, if_pos htr]
    simp only [objFieldsD]
    rw [modelButtonP]
    rw [strD_resolve_eq_stringAt h1 (.str (modelColors cl).primary) rfl,
      strD_resolve_eq_stringAt h2 (.str (toStr "#ffffff")) rfl,
      strD_resolve_eq_stringAt h3 (.str (toStr "4px")) rfl]
    rfl
  · intro hfalse
    rw [extractModel_buttons, hcompl]
    simp only [objFieldsD]
    rw [modelButtons_secondary, hfalse,
      if_neg (show ¬(false = true) by decide)]
  · intro btnl hbtn hne
    have htr : (Json.obj btnl).truthy = true := by
      cases btnl with
      | nil => exact absurd rfl hne
      | cons q qs => rfl
    have hshape : wfBtnSShape (.obj btnl) = true := by
      rw [hbtn] at hbs
      rw [wfBtnS, htr, if_pos rfl] at hbs
      exact hbs
    rw [wfBtnSShape] at hshape
    simp only [Bool.and_eq_true] at hshape
    obtain ⟨⟨⟨h1, h2⟩, h3⟩, h4⟩ := hshape
    rw [extractModel_buttons, extractModel_colors, hcompl, hcl]
    simp only [objFieldsD]
    rw [modelButtons_secondary, hbtn, if_pos htr]
    simp only [objFieldsD]
    rw [modelButtonS]
    rw [strD_resolve_eq_stringAt h1 (.str (toStr "transparent")) rfl,
      strD_resolve_eq_stringAt h2 (.str (modelColors cl).primary) rfl,
      strD_resolve_eq_stringAt h3 (.str (toStr "4px")) rfl,
      optStrD_resolve_null_eq, optStringAtD_none_eq_stringAt]
    rfl

/-- A structured payload with a primary color and both button components
populated. -/
def buttonsPayload : Json :=
  .obj [(toStr "data", .obj [(toStr "branding", .obj [
    (toStr "colors", .obj [(toStr "primary", .str (toStr "#123456"))]),
    (toStr "components", .obj [
      (toStr "buttonPrimary", .obj [
        (toStr "background", .str (toStr "#111111"))]),
      (toStr "buttonSecondary", .obj [
        (toStr "borderColor", .str (toStr "#cccccc"))])])])])]

/-- Witness for C5 at a payload with truthy primary and secondary
components. -/
theorem button_mapping_on_truthy_components_witness :
    ∃ bd, extractBrand (toStr "https://example.com") false buttonsPayload =
        .ok bd ∧
      ((resolveD [(toStr "buttonPrimary", .obj [(toStr "background",
          .str (toStr "#111111"))]), (toStr "buttonSecondary", .obj [
          (toStr "borderColor", .str (toStr "#cccccc"))])]
          (toStr "buttonPrimary") .null).truthy = false →
        bd.buttons.primary = none) ∧
      (∀ btnl : List (Str × Json),
        resolveD [(toStr "buttonPrimary", .obj [(toStr "background",
          .str (toStr "#111111"))]), (toStr "buttonSecondary", .obj [
          (toStr "borderColor", .str (toStr "#cccccc"))])]
          (toStr "buttonPrimary") .null = .obj btnl →
        btnl ≠ [] →
        bd.buttons.primary = some
          { bg := (stringAt btnl (toStr "background")).getD
              bd.colors.primary
            text := (stringAt btnl (toStr "textColor")).getD
              (toStr "#ffffff")
            border_radius := (stringAt btnl (toStr "borderRadius")).getD
              (toStr "4px")
            padding := toStr "12px 24px"
            border := none }) ∧
      ((resolveD [(toStr "buttonPrimary", .obj [(toStr "background",
          .str (toStr "#111111"))]), (toStr "buttonSecondary", .obj [
          (toStr "borderColor", .str (toStr "#cccccc"))])]
          (toStr "buttonSecondary") .null).truthy = false →
        bd.buttons.secondary = none) ∧
      (∀ btnl : List (Str × Json),
        resolveD [(toStr "buttonPrimary", .obj [(toStr "background",
          .str (toStr "#111111"))]), (toStr "buttonSecondary", .obj [
          (toStr "borderColor", .str (toStr "#cccccc"))])]
          (toStr "buttonSecondary") .null = .obj btnl →
        btnl ≠ [] →
        bd.buttons.secondary = some
          { bg := (stringAt btnl (toStr "background")).getD
              (toStr "transparent")
            text := (stringAt btnl (toStr "textColor")).getD
              bd.colors.primary
            border_radius := (stringAt btnl (toStr "borderRadius")).getD
              (toStr "4px")
            padding := toStr "12px 24px"
            border := stringAt btnl (toStr "borderColor") }) :=
  button_mapping_on_truthy_components (toStr "https://example.com") false
    buttonsPayload (by decide)
    [(toStr "primary", .str (toStr "#123456"))]
    [(toStr "buttonPrimary", .obj [(toStr "background",
      .str (toStr "#111111"))]), (toStr "buttonSecondary", .obj [
      (toStr "borderColor", .str (toStr "#cccccc"))])]
    rfl rfl


/-- C6: for every well-typed structured branding payload, `headings` is
`fontFamilies.heading` if present, else `fontFamilies.primary`, else
`"sans-serif"`; `body` is `fontFamilies.primary` or `"sans-serif"`;
`weights` lists the `fontWeights` values in the source's own order, or
`[400, 600, 700]` when `fontWeights` is empty or absent; and `base_size` is
`fontSizes.body`, defaulting to `"16px"`. -/
theorem typography_mapping_spec (url : Str) (inc : Bool) (data : Json)
    (h : wfScrape data = true) (tl ffl fwl fsl : List (Str × Json))
    (htl : brandingField data (toStr "typography") = .obj tl)
    (hffl : resolveD tl (toStr "fontFamilies") (.obj []) = .obj ffl)
    (hfwl : resolveD tl (toStr "fontWeights") (.obj []) = .obj fwl)
    (hfsl : resolveD tl (toStr "fontSizes") (.obj []) = .obj fsl) :
    ∃ bd, extractBrand url inc data = .ok bd ∧
      bd.typography.headings = (stringAt ffl (toStr "heading")).getD
        ((stringAt ffl (toStr "primary")).getD (toStr "sans-serif")) ∧
      bd.typography.body =
        (stringAt ffl (toStr "primary")).getD (toStr "sans-serif") ∧
      bd.typography.weights =
        (if fwl.isEmpty then [400, 600, 700]
         else fwl.map fun p => numD p.2) ∧
      bd.typography.base_size =
        optStringAtD fsl (toStr "body") (some (toStr "16px")) := by
  obtain ⟨-, hty, -, -⟩ := wfScrape_fields data h
  rw [htl, wfTypo, hffl, hfwl, hfsl] at hty
  simp only [wfFFshape, wfFW, wfFSshape, Bool.and_eq_true] at hty
  obtain ⟨⟨⟨hh, hp⟩, hwts⟩, hbody⟩ := hty
  refine ⟨extractModel url inc data, extractBrand_eq_model url inc data h,
    ?_, ?_, ?_, ?_⟩
  · rw [extractModel_typography, htl]
    simp only [objFieldsD]
    rw [show (modelTypography tl).headings =
      strD (resolveD (objFieldsD (resolveD tl (toStr "fontFamilies")
        (.obj []))) (toStr "heading")
        (resolveD (objFieldsD (resolveD tl (toStr "fontFamilies")
          (.obj []))) (toStr "primary") (.str (toStr "sans-serif"))))
      from rfl, hffl]
    simp only [objFieldsD]
    rw [strD_resolve_eq_stringAt hh _
      (isStr_resolve_key hp (.str (toStr "sans-serif")) rfl),
      strD_resolve_eq_stringAt hp (.str (toStr "sans-serif")) rfl]
    rfl
  · rw [extractModel_typography, htl]
    simp only [objFieldsD]
    rw [show (modelTypography tl).body =
      strD (resolveD (objFieldsD (resolveD tl (toStr "fontFamilies")
        (.obj []))) (toStr "primary") (.str (toStr "sans-serif")))
      from rfl, hffl]
    simp only [objFieldsD]
    rw [strD_resolve_eq_stringAt hp (.str (toStr "sans-serif")) rfl]
    rfl
  · rw [extractModel_typography, htl]
    simp only [objFieldsD]
    rw [show (modelTypography tl).weights =
      (if (resolveD tl (toStr "fontWeights") (.obj [])).truthy then
        (objFieldsD (resolveD tl (toStr "fontWeights") (.obj []))).map
          fun p => numD p.2
      else [400, 600, 700]) from rfl, hfwl]
    cases fwl with
    | nil => rfl
    | cons q qs => rfl
  · rw [extractModel_typography, htl]
    simp only [objFieldsD]
    rw [show (modelTypography tl).base_size =
      optStrD (resolveD (objFieldsD (resolveD tl (toStr "fontSizes")
        (.obj []))) (toStr "body") (.str (toStr "16px"))) from rfl, hfsl]
    simp only [objFieldsD]
    rw [optStrD_resolve_str_eq]

/-- A structured payload with a fully populated typography object. -/
def typoPayload : Json :=
  .obj [(toStr "data", .obj [(toStr "branding", .obj [
    (toStr "typography", .obj [
      (toStr "fontFamilies", .obj [
        (toStr "heading", .str (toStr "Inter")),
        (toStr "primary", .str (toStr "Roboto"))]),
      (toStr "fontWeights", .obj [
        (toStr "regular", .num 400),
        (toStr "bold", .num 700)]),
      (toStr "fontSizes", .obj [
        (toStr "body", .str (toStr "15px"))])])])])]

/-- Witness for C6 at a populated typography payload. -/
theorem typography_mapping_spec_witness :
    ∃ bd, extractBrand (toStr "https://example.com") false typoPayload =
        .ok bd ∧
      bd.typography.headings = (stringAt [(toStr "heading",
        .str (toStr "Inter")), (toStr "primary", .str (toStr "Roboto"))]
        (toStr "heading")).getD ((stringAt [(toStr "heading",
        .str (toStr "Inter")), (toStr "primary", .str (toStr "Roboto"))]
        (toStr "primary")).getD (toStr "sans-serif")) ∧
      bd.typography.body = (stringAt [(toStr "heading",
        .str (toStr "Inter")), (toStr "primary", .str (toStr "Roboto"))]
        (toStr "primary")).getD (toStr "sans-serif") ∧
      bd.typography.weights =
        (if ([(toStr "regular", Json.num 400),
          (toStr "bold", Json.num 700)] : List (Str × Json)).isEmpty then
          ([400, 600, 700] : List Int)
         else [(toStr "regular", Json.num 400),
          (toStr "bold", Json.num 700)].map fun p => numD p.2) ∧
      bd.typography.base_size =
        optStringAtD [(toStr "body", .str (toStr "15px"))] (toStr "body")
          (some (toStr "16px")) :=
  typography_mapping_spec (toStr "https://example.com") false typoPayload
    (by decide)
    [(toStr "fontFamilies", .obj [(toStr "heading", .str (toStr "Inter")),
      (toStr "primary", .str (toStr "Roboto"))]),
     (toStr "fontWeights", .obj [(toStr "regular", .num 400),
      (toStr "bold", .num 700)]),
     (toStr "fontSizes", .obj [(toStr "body", .str (toStr "15px"))])]
    [(toStr "heading", .str (toStr "Inter")),
     (toStr "primary", .str (toStr "Roboto"))]
    [(toStr "regular", .num 400), (toStr "bold", .num 700)]
    [(toStr "body", .str (toStr "15px"))]
    rfl rfl rfl rfl

/-- A vision payload whose `colors.primary` is present as the empty
string. -/
def emptyPrimaryVision : Json :=
  .obj [(toStr "colors", .obj [(toStr "primary", .str [])])]

/-- C7 counterexample: with `colors.primary` present as `""` (a string, not
`None`), the returned primary color is `""` yet the palette is empty — the
palette filter drops every falsy value, not only `None` entries, so a
payload value that is present and non-`None` can still be missing from the
palette. -/
theorem vision_palette_drops_empty_string :
    parseResponse (fun _ => some emptyPrimaryVision) (toStr "irrelevant")
        (toStr "https://example.com") (toStr "https://shot.png") =
      .ok { url := toStr "https://example.com"
            colors := { primary := [], secondary := none, accent := none,
                        background := some (toStr "#ffffff"),
                        text := some (toStr "#000000"), palette := [] }
            typography := { headings := toStr "sans-serif",
                            body := toStr "sans-serif",
                            weights := [400, 600, 700], base_size := none }
            spacing := { grid := toStr "8px", gap := none }
            buttons := { primary := none, secondary := none }
            logo_url := none, favicon_url := none
            screenshots := [toStr "https://shot.png"] } := rfl

/-- C7 (amended): for every successfully parsed, well-typed vision payload,
the returned colors are `primary` (default `"#000000"`), `secondary`,
`accent`, `background` (default `"#ffffff"`), `text` (default `"#000000"`),
and the palette is the fixed-order sequence of the five payload values with
falsy entries — `null` and the empty string — filtered out, keeping only
non-empty strings literally present. -/
theorem vision_colors_mapping_spec (loads : Str → Option Json)
    (t sourceUrl screenshotUrl : Str) (j : Json)
    (cl : List (Str × Json))
    (hload : loads (pyStrip (stripFence (pyStrip t))) = some j)
    (hwf : wfVision j = true)
    (hcl : resolveD (objFieldsD j) (toStr "colors") (.obj []) = .obj cl) :
    ∃ bd, parseResponse loads t sourceUrl screenshotUrl = .ok bd ∧
      bd.colors.primary =
        (stringAt cl (toStr "primary")).getD (toStr "#000000") ∧
      bd.colors.secondary = stringAt cl (toStr "secondary") ∧
      bd.colors.accent = stringAt cl (toStr "accent") ∧
      bd.colors.background =
        optStringAtD cl (toStr "background") (some (toStr "#ffffff")) ∧
      bd.colors.text =
        optStringAtD cl (toStr "text") (some (toStr "#000000")) ∧
      bd.colors.palette =
        ([lookupA cl (toStr "primary"), lookupA cl (toStr "secondary"),
          lookupA cl (toStr "accent"), lookupA cl (toStr "background"),
          lookupA cl (toStr "text")]).filterMap keptColor := by
  have hpr : parseResponse loads t sourceUrl screenshotUrl =
      vBuild j sourceUrl screenshotUrl := by
    rw [parseResponse, hload]
  have hc := wfVision_colors j hwf
  rw [hcl, wfVColors] at hc
  simp only [Bool.and_eq_true] at hc
  obtain ⟨hall0, hnn⟩ := hc
  have hall : ∀ p ∈ cl, isOptStrJ p.2 = true := fun p hp2 =>
    List.all_eq_true.mp hall0 p hp2
  refine ⟨vModel j sourceUrl screenshotUrl,
    hpr.trans (vBuild_eq_model j sourceUrl screenshotUrl hwf),
    ?_, ?_, ?_, ?_, ?_, ?_⟩
  · rw [vModel_colors, hcl]
    simp only [objFieldsD]
    rw [show (vModelColors cl).primary =
      strD (resolveD cl (toStr "primary") (.str (toStr "#000000")))
      from rfl]
    exact strD_resolve_primary_eq hall hnn _
  · rw [vModel_colors, hcl]
    simp only [objFieldsD]
    rw [show (vModelColors cl).secondary =
      optStrD (resolveD cl (toStr "secondary") .null) from rfl,
      optStrD_resolve_null_eq, optStringAtD_none_eq_stringAt]
  · rw [vModel_colors, hcl]
    simp only [objFieldsD]
    rw [show (vModelColors cl).accent =
      optStrD (resolveD cl (toStr "accent") .null) from rfl,
      optStrD_resolve_null_eq, optStringAtD_none_eq_stringAt]
  · rw [vModel_colors, hcl]
    simp only [objFieldsD]
    rw [show (vModelColors cl).background =
      optStrD (resolveD cl (toStr "background") (.str (toStr "#ffffff")))
      from rfl, optStrD_resolve_str_eq]
  · rw [vModel_colors, hcl]
    simp only [objFieldsD]
    rw [show (vModelColors cl).text =
      optStrD (resolveD cl (toStr "text") (.str (toStr "#000000")))
      from rfl, optStrD_resolve_str_eq]
  · rw [vModel_colors, hcl]
    simp only [objFieldsD]
    rw [vModelColors_palette]
    exact palette_filter_eq [lookupA cl (toStr "primary"),
      lookupA cl (toStr "secondary"), lookupA cl (toStr "accent"),
      lookupA cl (toStr "background"), lookupA cl (toStr "text")] (by
        intro o ho v hv
        simp only [List.mem_cons, List.not_mem_nil, or_false] at ho
        rcases ho with h5|h5|h5|h5|h5 <;>
          (subst h5; exact hall _ (lookupA_mem hv)))

/-- A vision payload with a fully populated colors object. -/
def fullColorsVision : Json :=
  .obj [(toStr "colors", .obj [
    (toStr "primary", .str (toStr "#FF5A5F")),
    (toStr "secondary", .str (toStr "#00A699")),
    (toStr "background", .str (toStr "#FFFFFF")),
    (toStr "text", .str (toStr "#484848"))])]

/-- Witness for C7 at a populated vision colors payload. -/
theorem vision_colors_mapping_spec_witness :
    ∃ bd, parseResponse (fun _ => some fullColorsVision)
        (toStr "reply") (toStr "https://example.com")
        (toStr "https://shot.png") = .ok bd ∧
      bd.colors.primary = (stringAt [(toStr "primary",
        .str (toStr "#FF5A5F")), (toStr "secondary",
        .str (toStr "#00A699")), (toStr "background",
        .str (toStr "#FFFFFF")), (toStr "text", .str (toStr "#484848"))]
        (toStr "primary")).getD (toStr "#000000") ∧
      bd.colors.secondary = stringAt [(toStr "primary",
        .str (toStr "#FF5A5F")), (toStr "secondary",
        .str (toStr "#00A699")), (toStr "background",
        .str (toStr "#FFFFFF")), (toStr "text", .str (toStr "#484848"))]
        (toStr "secondary") ∧
      bd.colors.accent = stringAt [(toStr "primary",
        .str (toStr "#FF5A5F")), (toStr "secondary",
        .str (toStr "#00A699")), (toStr "background",
        .str (toStr "#FFFFFF")), (toStr "text", .str (toStr "#484848"))]
        (toStr "accent") ∧
      bd.colors.background = optStringAtD [(toStr "primary",
        .str (toStr "#FF5A5F")), (toStr "secondary",
        .str (toStr "#00A699")), (toStr "background",
        .str (toStr "#FFFFFF")), (toStr "text", .str (toStr "#484848"))]
        (toStr "background") (some (toStr "#ffffff")) ∧
      bd.colors.text = optStringAtD [(toStr "primary",
        .str (toStr "#FF5A5F")), (toStr "secondary",
        .str (toStr "#00A699")), (toStr "background",
        .str (toStr "#FFFFFF")), (toStr "text", .str (toStr "#484848"))]
        (toStr "text") (some (toStr "#000000")) ∧
      bd.colors.palette =
        ([lookupA [(toStr "primary", .str (toStr "#FF5A5F")),
          (toStr "secondary", .str (toStr "#00A699")),
          (toStr "background", .str (toStr "#FFFFFF")),
          (toStr "text", .str (toStr "#484848"))] (toStr "primary"),
          lookupA [(toStr "primary", .str (toStr "#FF5A5F")),
          (toStr "secondary", .str (toStr "#00A699")),
          (toStr "background", .str (toStr "#FFFFFF")),
          (toStr "text", .str (toStr "#484848"))] (toStr "secondary"),
          lookupA [(toStr "primary", .str (toStr "#FF5A5F")),
          (toStr "secondary", .str (toStr "#00A699")),
          (toStr "background", .str (toStr "#FFFFFF")),
          (toStr "text", .str (toStr "#484848"))] (toStr "accent"),
          lookupA [(toStr "primary", .str (toStr "#FF5A5F")),
          (toStr "secondary", .str (toStr "#00A699")),
          (toStr "background", .str (toStr "#FFFFFF")),
          (toStr "text", .str (toStr "#484848"))] (toStr "background"),
          lookupA [(toStr "primary", .str (toStr "#FF5A5F")),
          (toStr "secondary", .str (toStr "#00A699")),
          (toStr "background", .str (toStr "#FFFFFF")),
          (toStr "text", .str (toStr "#484848"))] (toStr "text")]).filterMap
          keptColor :=
  vision_colors_mapping_spec (fun _ => some fullColorsVision)
    (toStr "reply") (toStr "https://example.com") (toStr "https://shot.png")
    fullColorsVision
    [(toStr "primary", .str (toStr "#FF5A5F")),
     (toStr "secondary", .str (toStr "#00A699")),
     (toStr "background", .str (toStr "#FFFFFF")),
     (toStr "text", .str (toStr "#484848"))]
    rfl (by decide) rfl

/-- C10: for every successfully parsed, well-typed vision payload, every
entry of the returned palette is a non-empty string literally present under
one of the five canonical color keys of the payload — defaulted canonical
fields are never added — and when the colors object is empty the primary
color is the default `"#000000"` while the palette is empty. -/
theorem vision_palette_only_literal_truthy_values
    (loads : Str → Option Json) (t sourceUrl screenshotUrl : Str)
    (j : Json) (cl : List (Str × Json))
    (hload : loads (pyStrip (stripFence (pyStrip t))) = some j)
    (hwf : wfVision j = true)
    (hcl : resolveD (objFieldsD j) (toStr "colors") (.obj []) = .obj cl) :
    ∃ bd, parseResponse loads t sourceUrl screenshotUrl = .ok bd ∧
      (∀ c ∈ bd.colors.palette,
        ∃ k, k ∈ [toStr "primary", toStr "secondary", toStr "accent",
          toStr "background", toStr "text"] ∧
          lookupA cl k = some (.str c) ∧ c ≠ []) ∧
      (lookupA cl (toStr "primary") = none →
        bd.colors.primary = toStr "#000000") ∧
      (cl = [] → bd.colors.palette = []) := by
  have hpr : parseResponse loads t sourceUrl screenshotUrl =
      vBuild j sourceUrl screenshotUrl := by
    rw [parseResponse, hload]
  have hc := wfVision_colors j hwf
  rw [hcl, wfVColors] at hc
  simp only [Bool.and_eq_true] at hc
  obtain ⟨hall0, hnn⟩ := hc
  have hall : ∀ p ∈ cl, isOptStrJ p.2 = true := fun p hp2 =>
    List.all_eq_true.mp hall0 p hp2
  refine ⟨vModel j sourceUrl screenshotUrl,
    hpr.trans (vBuild_eq_model j sourceUrl screenshotUrl hwf),
    ?_, ?_, ?_⟩
  · intro c hcmem
    rw [vModel_colors, hcl] at hcmem
    simp only [objFieldsD] at hcmem
    rw [vModelColors_palette] at hcmem
    rw [List.mem_map] at hcmem
    obtain ⟨v, hvf, hstr⟩ := hcmem
    rw [List.mem_filter] at hvf
    obtain ⟨hvmem, htr⟩ := hvf
    simp only [List.mem_cons, List.not_mem_nil, or_false] at hvmem
    rcases hvmem with h5|h5|h5|h5|h5
    · exact ⟨toStr "primary", by simp, palette_mem_one hall h5 htr hstr⟩
    · exact ⟨toStr "secondary", by simp, palette_mem_one hall h5 htr hstr⟩
    · exact ⟨toStr "accent", by simp, palette_mem_one hall h5 htr hstr⟩
    · exact ⟨toStr "background", by simp, palette_mem_one hall h5 htr hstr⟩
    · exact ⟨toStr "text", by simp, palette_mem_one hall h5 htr hstr⟩
  · intro h0
    rw [vModel_colors, hcl]
    simp only [objFieldsD]
    rw [show (vModelColors cl).primary =
      strD (resolveD cl (toStr "primary") (.str (toStr "#000000")))
      from rfl, resolveD, h0]
    rfl
  · intro hnil
    subst hnil
    rw [vModel_colors, hcl]
    simp only [objFieldsD]
    rw [vModelColors_palette]
    rfl

/-- A vision payload whose colors object holds only a secondary color. -/
def secondaryOnlyVision : Json :=
  .obj [(toStr "colors", .obj [
    (toStr "secondary", .str (toStr "#ff0000"))])]

/-- Witness for C10 at a payload with `primary` absent: the returned primary
defaults, and the palette holds only the literally present secondary. -/
theorem vision_palette_only_literal_truthy_values_witness :
    ∃ bd, parseResponse (fun _ => some secondaryOnlyVision) (toStr "reply")
        (toStr "https://example.com") (toStr "https://shot.png") =
        .ok bd ∧
      (∀ c ∈ bd.colors.palette,
        ∃ k, k ∈ [toStr "primary", toStr "secondary", toStr "accent",
          toStr "background", toStr "text"] ∧
          lookupA [(toStr "secondary", Json.str (toStr "#ff0000"))] k =
            some (.str c) ∧ c ≠ []) ∧
      (lookupA [(toStr "secondary", Json.str (toStr "#ff0000"))]
          (toStr "primary") = none →
        bd.colors.primary = toStr "#000000") ∧
      (([(toStr "secondary", Json.str (toStr "#ff0000"))] :
          List (Str × Json)) = [] → bd.colors.palette = []) :=
  vision_palette_only_literal_truthy_values
    (fun _ => some secondaryOnlyVision) (toStr "reply")
    (toStr "https://example.com") (toStr "https://shot.png")
    secondaryOnlyVision
    [(toStr "secondary", .str (toStr "#ff0000"))]
    rfl (by decide) rfl

end Mirage
